import Mathlib

/-!
Shallow embedding of the swiggyit extraction core (src/parser/summary_parser.py,
src/parser/food_parser.py, src/parser/instamart_parser.py) and proofs about it.

Modelling conventions:
* Python `str` is `String`; optional table cells (`Optional[str]`) are `Option String`.
* Python exceptions are modelled with `Except PyError`; a function that cannot
  raise is total.
* Python `float` values arising from parsing decimal text are modelled as `ℚ`
  (every value actually compared in the claims is an exact decimal).
* Python regex character class `\d` and `str.isdigit` are modelled over ASCII
  digits; whitespace (`\s`, `str.strip`) over the ASCII whitespace characters.
-/

namespace Swiggyit

/-- Python exceptions relevant to the parser core. -/
inductive PyError where
  | valueError (msg : String)
  | indexError
deriving DecidableEq, Repr

/-- ASCII whitespace as stripped by Python `str.strip()` / matched by `\s`. -/
def pyIsSpace (c : Char) : Bool :=
  c = ' ' || c = '\t' || c = '\n' || c = '\r' || c = '\x0b' || c = '\x0c'

/-- Python `s.strip()`. -/
def pyStrip (s : String) : String :=
  String.mk (((s.data.dropWhile pyIsSpace).reverse.dropWhile pyIsSpace).reverse)

/-- Python `s.rstrip(".")`: drop all trailing period characters. -/
def rstripDots (s : String) : String :=
  String.mk ((s.data.reverse.dropWhile (fun c => c = '.')).reverse)

/-- Python `s.isdigit()` (ASCII model): nonempty and all decimal digits. -/
def pyIsdigit (s : String) : Bool :=
  !s.data.isEmpty && s.data.all Char.isDigit

/-- Python `s.replace(c, "")` for a single-character pattern. -/
def removeChar (s : String) (c : Char) : String :=
  String.mk (s.data.filter (fun d => d ≠ c))

/-- Python `" ".join(s.split())`: collapse whitespace runs to single spaces. -/
def normSpace (s : String) : String :=
  " ".intercalate ((s.split pyIsSpace).filter (fun t => t ≠ ""))

/-- Whether `n` occurs as a contiguous sublist of `h`. -/
def listContains (n : List Char) : List Char → Bool
  | [] => n.isPrefixOf []
  | c :: t => n.isPrefixOf (c :: t) || listContains n t

/-- Python `needle in hay` for strings (contiguous substring test). -/
def pyIn (needle hay : String) : Bool :=
  listContains needle.data hay.data

/-- Truthiness of an optional text cell: `None` and `""` are falsy. -/
def cellTruthy (c : Option String) : Bool :=
  match c with
  | none => false
  | some s => s ≠ ""

/-- Python `cell or ""`. -/
def cellOrEmpty (c : Option String) : String := c.getD ""

/-- Python list indexing `l[i]` for `i ≥ 0`: raises IndexError out of range. -/
def pyIdx {α : Type} (l : List α) (i : Nat) : Except PyError α :=
  match l.get? i with
  | some a => .ok a
  | none => .error .indexError

/-- Python `l[-1]`: last element, IndexError on an empty list. -/
def pyLast {α : Type} (l : List α) : Except PyError α :=
  match l.getLast? with
  | some a => .ok a
  | none => .error .indexError

/-- Digits-to-number accumulator for ASCII digit lists. -/
def digitsToNat (ds : List Char) : Nat :=
  ds.foldl (fun a c => a * 10 + (c.toNat - 48)) 0

/-- Python `int(s)` on a string: strip whitespace, optional sign, digits. -/
def pyInt (s : String) : Option Int :=
  let t := ((s.data.dropWhile pyIsSpace).reverse.dropWhile pyIsSpace).reverse
  match t with
  | '+' :: ds =>
      if !ds.isEmpty && ds.all Char.isDigit then some (digitsToNat ds) else none
  | '-' :: ds =>
      if !ds.isEmpty && ds.all Char.isDigit then some (-(digitsToNat ds : Int)) else none
  | ds =>
      if !ds.isEmpty && ds.all Char.isDigit then some (digitsToNat ds) else none

/-- Python `int(s)` as an exception-raising operation. -/
def pyIntE (s : String) : Except PyError Int :=
  match pyInt s with
  | some n => .ok n
  | none => .error (.valueError "invalid literal for int() with base 10")

/-- Integer part value of a digit list. -/
def pfDigits (ds : List Char) : ℚ := (digitsToNat ds : ℚ)

/-- Fractional part value of a digit list. -/
def pfFrac (ds : List Char) : ℚ := (digitsToNat ds : ℚ) / ((10 : ℚ) ^ ds.length)

/-- Optional exponent suffix of a Python float literal (`e`/`E`, signed digits). -/
def pfExpPart (t : List Char) : Option Int :=
  match t with
  | [] => some 0
  | c :: r =>
    if c = 'e' || c = 'E' then
      match r with
      | '+' :: ds =>
          if !ds.isEmpty && ds.all Char.isDigit then some (digitsToNat ds) else none
      | '-' :: ds =>
          if !ds.isEmpty && ds.all Char.isDigit then some (-(digitsToNat ds : Int)) else none
      | ds =>
          if !ds.isEmpty && ds.all Char.isDigit then some (digitsToNat ds) else none
    else none

/-- Unsigned body of a Python float literal: `digits [. digits] [exp]`. -/
def pfBody (t : List Char) : Option ℚ :=
  let ip := t.takeWhile Char.isDigit
  let r1 := t.dropWhile Char.isDigit
  match r1 with
  | '.' :: r2 =>
    let fp := r2.takeWhile Char.isDigit
    let r3 := r2.dropWhile Char.isDigit
    if ip.isEmpty && fp.isEmpty then none
    else (pfExpPart r3).map (fun e => (pfDigits ip + pfFrac fp) * (10 : ℚ) ^ e)
  | _ =>
    if ip.isEmpty then none
    else (pfExpPart r1).map (fun e => pfDigits ip * (10 : ℚ) ^ e)

/-- Python `float(s)` on a string, modelled over the finite decimal forms
(`inf`/`nan`/underscored literals are mapped to a parse failure; none of the
repository's inputs use them).  `none` models a raised `ValueError`. -/
def pyFloat (s : String) : Option ℚ :=
  let t := ((s.data.dropWhile pyIsSpace).reverse.dropWhile pyIsSpace).reverse
  match t with
  | '+' :: r => pfBody r
  | '-' :: r => (pfBody r).map Neg.neg
  | r => pfBody r

/-- Python `float(s)` as an exception-raising operation. -/
def pyFloatE (s : String) : Except PyError ℚ :=
  match pyFloat s with
  | some q => .ok q
  | none => .error (.valueError "could not convert string to float")

/-! ### Currency/number normalizers (the three implementations in the source) -/

/-- food_parser.py `_parse_float`: total normalizer, defaults to `0.0` on any
absence, empty string or parse failure. -/
def _parse_float (val : Option String) : ℚ :=
  match val with
  | none => 0
  | some s =>
    if s = "" then 0
    else
      match pyFloat (pyStrip (removeChar (removeChar s ',') '₹')) with
      | some q => q
      | none => 0

/-- instamart_parser.py `_pf`: same total normalizer as `_parse_float`. -/
def _pf (val : Option String) : ℚ :=
  match val with
  | none => 0
  | some s =>
    if s = "" then 0
    else
      match pyFloat (pyStrip (removeChar (removeChar s ',') '₹')) with
      | some q => q
      | none => 0

/-- summary_parser.py `_parse_amount`: strips the currency glyph and commas and
calls `float` with no exception handler; `none` models a raised `ValueError`. -/
def _parse_amount (text : String) : Option ℚ :=
  pyFloat (pyStrip (removeChar (removeChar text '₹') ','))

/-! ### A small regex engine

The header extractors in the source locate fields with `re.search`.  The
patterns use literals, the classes `\d`, `\s`, `\S`, `[\d.]`, `[\d,.]`, `.`
(with or without `re.DOTALL`), greedy and lazy repetition, `^`/`$` under
`re.MULTILINE`, alternation, a lookahead `(?=...)`, and numbered capture
groups.  The engine below implements exactly these constructs with Python's
leftmost-match and backtracking-priority semantics; repetition is driven by a
fuel parameter that is always sufficient for the strings the theorems touch
(an exhausted fuel behaves like a failed match). -/

/-- Regex abstract syntax (one node per construct used by the source). -/
inductive RE where
  | eps : RE
  | cls (p : Char → Bool) : RE
  | seq (a b : RE) : RE
  | alt (a b : RE) : RE
  | star (lazy : Bool) (a : RE) : RE
  | grp (n : Nat) (a : RE) : RE
  | bol (multiline : Bool) : RE
  | eol (multiline : Bool) : RE
  | look (a : RE) : RE

/-- Captured groups: association list from group number to captured text. -/
abbrev Caps := List (Nat × String)

/-- Backtracking matcher in continuation-passing style.  `s` is the subject,
`i` the current position, `k` the continuation receiving the next position and
captures; alternation and repetition follow Python priority order. -/
def reMat : Nat → List Char → RE → Nat → Caps →
    (Nat → Caps → Option Caps) → Option Caps
  | 0, _, _, _, _, _ => none
  | Nat.succ fuel, s, re, i, caps, k =>
    match re with
    | .eps => k i caps
    | .cls p =>
      match s.get? i with
      | some c => if p c then k (i + 1) caps else none
      | none => none
    | .seq a b => reMat fuel s a i caps (fun j cs => reMat fuel s b j cs k)
    | .alt a b =>
      match reMat fuel s a i caps k with
      | some r => some r
      | none => reMat fuel s b i caps k
    | .star lazy a =>
      if lazy then
        match k i caps with
        | some r => some r
        | none =>
          reMat fuel s a i caps (fun j cs =>
            if j = i then none else reMat fuel s (.star lazy a) j cs k)
      else
        match reMat fuel s a i caps (fun j cs =>
            if j = i then none else reMat fuel s (.star lazy a) j cs k) with
        | some r => some r
        | none => k i caps
    | .grp n a =>
      reMat fuel s a i caps (fun j cs =>
        k j ((n, String.mk ((s.drop i).take (j - i))) :: cs))
    | .bol ml =>
      if i = 0 || (ml && s.get? (i - 1) = some '\n') then k i caps else none
    | .eol ml =>
      if i = s.length ||
          (if ml then s.get? i = some '\n'
           else s.get? i = some '\n' && i + 1 = s.length) then
        k i caps
      else none
    | .look a =>
      match reMat fuel s a i caps (fun _ cs => some cs) with
      | some cs => k i cs
      | none => none

/-- Fuel bound used for all searches (ample for the inputs in this file). -/
def reFuel (s : List Char) : Nat := (s.length + 1) * 400 + 400

/-- Python `re.search`: try each start position left to right, first success
wins; returns the captured groups. -/
def reSearch (re : RE) (str : String) : Option Caps :=
  let s := str.data
  (List.range (s.length + 1)).findSome? (fun i =>
    reMat (reFuel s) s re i [] (fun _ cs => some cs))

/-- Group accessor: `m.group n` (the first, i.e. outermost, capture wins). -/
def capGet (caps : Caps) (n : Nat) : Option String :=
  match caps.find? (fun p => p.fst = n) with
  | some p => some p.snd
  | none => none

/-- The `m.group(1)` of a search, if the search succeeded. -/
def searchGrp1 (re : RE) (t : String) : Option String :=
  (reSearch re t).bind (fun cs => capGet cs 1)

/-- A literal string as a regex. -/
def reLit (s : String) : RE :=
  s.data.foldr (fun c r => RE.seq (RE.cls (fun d => d = c)) r) RE.eps

/-- Class `\d` -/
def reD : RE := RE.cls Char.isDigit
/-- Class `\s` -/
def reWs : RE := RE.cls pyIsSpace
/-- Class `\S` -/
def reNws : RE := RE.cls (fun c => !pyIsSpace c)
/-- Class `.` — any char but newline, or any char under `re.DOTALL`. -/
def reDot (dotall : Bool) : RE := RE.cls (fun c => dotall || c ≠ '\n')
/-- Pattern `a+` (greedy or lazy). -/
def rePlus (lazy : Bool) (a : RE) : RE := RE.seq a (RE.star lazy a)
/-- Pattern `a{n}` for a fixed count. -/
def reRep (a : RE) : Nat → RE
  | 0 => RE.eps
  | Nat.succ n => RE.seq a (reRep a n)
/-- Pattern `\s{2,}` -/
def reWs2 : RE := RE.seq reWs (rePlus false reWs)
/-- Sequence of a list of regexes. -/
def reSeqs (l : List RE) : RE := l.foldr RE.seq RE.eps

/-! ### food_parser.py `_parse_header` -/

/-- Pattern `Invoice To:\s*(.+?)(?:\s{2,}Invoice issued)` -/
def reFoodInvoiceTo : RE :=
  reSeqs [reLit "Invoice To:", RE.star false reWs,
    RE.grp 1 (rePlus true (reDot false)), reWs2, reLit "Invoice issued"]

/-- Pattern `^GSTIN:\s*(\S+)` with `re.MULTILINE` -/
def reCustGstin : RE :=
  reSeqs [RE.bol true, reLit "GSTIN:", RE.star false reWs, RE.grp 1 (rePlus false reNws)]

/-- Pattern `Customer Address:\s*(.+?)(?:\s{2,}Restaurant GSTIN)` -/
def reFoodCustAddr : RE :=
  reSeqs [reLit "Customer Address:", RE.star false reWs,
    RE.grp 1 (rePlus true (reDot false)), reWs2, reLit "Restaurant GSTIN"]

/-- Pattern `Order ID:\s*(\d+)` -/
def reOrderId : RE :=
  reSeqs [reLit "Order ID:", RE.star false reWs, RE.grp 1 (rePlus false reD)]

/-- Pattern `Document:\s*(\S+)` -/
def reDocument : RE :=
  reSeqs [reLit "Document:", RE.star false reWs, RE.grp 1 (rePlus false reNws)]

/-- Pattern `Invoice No:\s*(\S+)` -/
def reInvoiceNo : RE :=
  reSeqs [reLit "Invoice No:", RE.star false reWs, RE.grp 1 (rePlus false reNws)]

/-- Pattern `Date of Invoice:\s*(\d{2}-\d{2}-\d{4})` -/
def reDateOfInvoice : RE :=
  reSeqs [reLit "Date of Invoice:", RE.star false reWs,
    RE.grp 1 (reSeqs [reRep reD 2, reLit "-", reRep reD 2, reLit "-", reRep reD 4])]

/-- Pattern `HSN Code:\s*(\d+)` -/
def reHsnCode : RE :=
  reSeqs [reLit "HSN Code:", RE.star false reWs, RE.grp 1 (rePlus false reD)]

/-- Pattern `Restaurant Name:\s*(.+?)$` with `re.MULTILINE` -/
def reRestName : RE :=
  reSeqs [reLit "Restaurant Name:", RE.star false reWs,
    RE.grp 1 (rePlus true (reDot false)), RE.eol true]

/-- Pattern `Restaurant GSTIN:\s*(\S+)` -/
def reRestGstin : RE :=
  reSeqs [reLit "Restaurant GSTIN:", RE.star false reWs, RE.grp 1 (rePlus false reNws)]

/-- Pattern `Restaurant FSSAI License:\s*(\S+)` -/
def reRestFssai : RE :=
  reSeqs [reLit "Restaurant FSSAI License:", RE.star false reWs,
    RE.grp 1 (rePlus false reNws)]

/-- Pattern `Restaurant FSSAI License:.*?\nAddress:\s*(.+?)(?=\nState:)` with `re.DOTALL` -/
def reRestAddr : RE :=
  reSeqs [reLit "Restaurant FSSAI License:", RE.star true (reDot true),
    reLit "\nAddress:", RE.star false reWs, RE.grp 1 (rePlus true (reDot true)),
    RE.look (reLit "\nState:")]

/-- Pattern `^State:\s*(.+?)$` with `re.MULTILINE` -/
def reStateLn : RE :=
  reSeqs [RE.bol true, reLit "State:", RE.star false reWs,
    RE.grp 1 (rePlus true (reDot false)), RE.eol true]

/-- Pattern `Place of Supply:\s*(.+?)$` with `re.MULTILINE` -/
def rePlaceOfSupply : RE :=
  reSeqs [reLit "Place of Supply:", RE.star false reWs,
    RE.grp 1 (rePlus true (reDot false)), RE.eol true]

/-- Pattern `Service Description:\s*(.+?)$` with `re.MULTILINE` -/
def reServiceDesc : RE :=
  reSeqs [reLit "Service Description:", RE.star false reWs,
    RE.grp 1 (rePlus true (reDot false)), RE.eol true]

/-- Pattern `Category:\s*(\S+)` -/
def reCategory : RE :=
  reSeqs [reLit "Category:", RE.star false reWs, RE.grp 1 (rePlus false reNws)]

/-- Pattern `Reverse Charges Applicable:\s*(\S+)` -/
def reRevCharges : RE :=
  reSeqs [reLit "Reverse Charges Applicable:", RE.star false reWs,
    RE.grp 1 (rePlus false reNws)]

/-- The dictionary built by food_parser.py `_parse_header` (every key is
assigned exactly once, so a plain structure is faithful). -/
structure FoodHeader where
  customer_name : String
  customer_gstin : String
  customer_address : String
  order_id : String
  document_type : String
  invoice_no : String
  date_of_invoice : String
  hsn_code : String
  restaurant_name : String
  restaurant_gstin : String
  restaurant_fssai : String
  restaurant_address : String
  restaurant_state : String
  place_of_supply : String
  service_description : String
  category : String
  reverse_charges : String
deriving DecidableEq, Repr

/-- Python `m.group(1).strip() if m else dflt` -/
def fieldStrip (re : RE) (t dflt : String) : String :=
  match searchGrp1 re t with
  | some v => pyStrip v
  | none => dflt

/-- Python `" ".join(m.group(1).split()) if m else ""` -/
def fieldNorm (re : RE) (t : String) : String :=
  match searchGrp1 re t with
  | some v => normSpace v
  | none => ""

/-- food_parser.py `_parse_header`: per-field anchored regex extraction over
the merged header cell; each miss defaults that one field only. -/
def _parse_header (t : String) : FoodHeader :=
  { customer_name := fieldStrip reFoodInvoiceTo t ""
    customer_gstin := fieldStrip reCustGstin t ""
    customer_address := fieldStrip reFoodCustAddr t ""
    order_id := fieldStrip reOrderId t ""
    document_type := fieldStrip reDocument t "INV"
    invoice_no := fieldStrip reInvoiceNo t ""
    date_of_invoice := fieldStrip reDateOfInvoice t ""
    hsn_code := fieldStrip reHsnCode t ""
    restaurant_name := fieldStrip reRestName t ""
    restaurant_gstin := fieldStrip reRestGstin t ""
    restaurant_fssai := fieldStrip reRestFssai t ""
    restaurant_address := fieldNorm reRestAddr t
    restaurant_state := fieldStrip reStateLn t ""
    place_of_supply := fieldStrip rePlaceOfSupply t ""
    service_description := fieldStrip reServiceDesc t ""
    category := fieldStrip reCategory t ""
    reverse_charges := fieldStrip reRevCharges t "No" }

/-! ### summary_parser.py -/

/-- Pattern `DATE_PATTERN = ^\d{2}-\d{2}-\d{4}$` applied with `.match` (the inputs are
always stripped first, so the pattern amounts to a full-token test). -/
def isDateToken (s : String) : Bool :=
  match s.data with
  | [a, b, '-', c, d, '-', e, f, g, h] =>
    a.isDigit && b.isDigit && c.isDigit && d.isDigit &&
    e.isDigit && f.isDigit && g.isDigit && h.isDigit
  | _ => false

/-- Pattern `ORDER_ID_PATTERN = ^\d{15}$` as a full-token test. -/
def isOrderIdToken (s : String) : Bool :=
  s.data.length = 15 && s.data.all Char.isDigit

/-- Pattern `AMOUNT_PATTERN = ^₹[\d,.]+$` as a full-token test. -/
def isAmountToken (s : String) : Bool :=
  match s.data with
  | '₹' :: rest =>
    !rest.isEmpty && rest.all (fun c => c.isDigit || c = ',' || c = '.')
  | _ => false

/-- summary_parser.py `_parse_amount` as the exception-raising operation it is
at its call sites. -/
def _parse_amountE (text : String) : Except PyError ℚ :=
  match _parse_amount text with
  | some q => .ok q
  | none => .error (.valueError "could not convert string to float")

/-- summary_parser.py `_detect_order_type` (input: `file_path.name`). -/
def _detect_order_type (fileName : String) : Except PyError String :=
  let name := fileName.toLower
  if pyIn "food" name then .ok "food"
  else if pyIn "instamart" name then .ok "instamart"
  else .error (.valueError ("Cannot detect order type from filename: " ++ fileName))

/-- The header dictionary of `_extract_header`; keys may be absent. -/
structure SummaryHeaderD where
  customer_name : Option String
  number_of_orders : Option Int
  total_amount : Option ℚ
  customer_email : Option String
  date_range : Option String
deriving DecidableEq, Repr

/-- One iteration of the `_extract_header` scan at index `i`. -/
def extractHeaderStep (lines : List String) (h : SummaryHeaderD) (i : Nat)
    (line : String) : Except PyError SummaryHeaderD :=
  if pyStrip line = "Customer Name" && i + 5 < lines.length then do
    let v3 ← pyIdx lines (i + 3)
    let v4 ← pyIdx lines (i + 4)
    let n ← pyIntE (pyStrip v4)
    let v5 ← pyIdx lines (i + 5)
    let amt ← _parse_amountE (pyStrip v5)
    .ok { h with customer_name := some (pyStrip v3),
                 number_of_orders := some n, total_amount := some amt }
  else if pyStrip line = "Email" && i + 3 < lines.length then do
    let v2 ← pyIdx lines (i + 2)
    let v3 ← pyIdx lines (i + 3)
    .ok { h with customer_email := some (pyStrip v2), date_range := some (pyStrip v3) }
  else .ok h

/-- summary_parser.py `_extract_header`: scan the first page's lines for the
label groups; `int`/`float` conversions may raise. -/
def _extract_header (lines : List String) : Except PyError SummaryHeaderD :=
  lines.enum.foldlM (fun h p => extractHeaderStep lines h p.fst p.snd)
    ⟨none, none, none, none, none⟩

/-- A row dictionary accumulated by `_extract_order_rows`. -/
structure RawRow where
  date : String
  order_id : String
  name : String
  amount : ℚ
deriving DecidableEq, Repr

/-- The inner name-accumulation loop of `_extract_order_rows`: consume lines
until one matches the amount pattern; return the collected name fragments, the
parsed amount and the lines remaining after the optional "View" marker, or
`none` when the page ends first (the candidate is then discarded). -/
def collectRow (acc : List String) : List String → Except PyError (Option (List String × ℚ × List String))
  | [] => .ok none
  | c :: rest =>
    let cand := pyStrip c
    if isAmountToken cand then do
      let amt ← _parse_amountE cand
      let rest2 := match rest with
        | v :: r2 => if pyStrip v = "View" then r2 else rest
        | [] => rest
      .ok (some (acc, amt, rest2))
    else collectRow (acc ++ [cand]) rest

/-- The per-page scan of `_extract_order_rows`, structured on a fuel that
counts the remaining loop iterations (each iteration of the source's `while`
loop advances `i` by at least one, so a fuel equal to the number of lines is
never exhausted): look for a date line; require the next line to be a 15-digit
order id (else resume after that next line); then accumulate name fragments
until an amount line, skip an optional "View" line, emit the row, and keep
scanning. -/
def scanLinesF : Nat → List String → Except PyError (List RawRow)
  | 0, _ => .ok []
  | _, [] => .ok []
  | Nat.succ fuel, l :: rest =>
    if isDateToken (pyStrip l) then
      match rest with
      | [] => .ok []
      | r :: rest2 =>
        if isOrderIdToken (pyStrip r) then
          match collectRow [] rest2 with
          | .error e => .error e
          | .ok none => .ok []
          | .ok (some (parts, amt, rest3)) =>
            match scanLinesF fuel rest3 with
            | .error e => .error e
            | .ok rows =>
              .ok ({ date := pyStrip l, order_id := pyStrip r,
                     name := String.intercalate " " parts, amount := amt } :: rows)
        else scanLinesF fuel rest2
    else scanLinesF fuel rest

/-- The per-page scan at its actual fuel. -/
def scanLines (ls : List String) : Except PyError (List RawRow) :=
  scanLinesF ls.length ls

/-- summary_parser.py `_extract_order_rows`: run the scan over every page's
line list and concatenate the rows. -/
def _extract_order_rows (pages : List (List String)) : Except PyError (List RawRow) := do
  let rss ← pages.mapM scanLines
  .ok rss.join

/-- Page artifact consumed by `parse_summary`: the page's text lines
(`page.get_text().split("\n")`) and its hyperlink targets. -/
structure SummaryPage where
  lines : List String
  urls : List String
deriving DecidableEq, Repr

/-- summary_parser.py `OrderRow`. -/
structure OrderRow where
  date : String
  order_id : String
  name : String
  amount : ℚ
  detail_url : String
deriving DecidableEq, Repr

/-- summary_parser.py `SummaryData`. -/
structure SummaryData where
  order_type : String
  customer_name : String
  customer_email : String
  number_of_orders : Int
  total_amount : ℚ
  date_range : String
  orders : List OrderRow
deriving DecidableEq, Repr

/-- summary_parser.py `_extract_urls`: all pages' hyperlink targets in order. -/
def _extract_urls (pages : List SummaryPage) : List String :=
  (pages.map SummaryPage.urls).join

/-- The order-construction loop of `parse_summary`: the i-th row is paired
with the i-th URL when it exists, else with the empty string. -/
def buildOrders (rows : List RawRow) (urls : List String) : List OrderRow :=
  rows.enum.map (fun p =>
    { date := p.snd.date, order_id := p.snd.order_id, name := p.snd.name,
      amount := p.snd.amount,
      detail_url := if p.fst < urls.length then urls.getD p.fst "" else "" })

/-- summary_parser.py `parse_summary` over the document's page artifacts.  The
count-mismatch warning is a log line with no effect on the result. -/
def parse_summary (fileName : String) (pages : List SummaryPage) :
    Except PyError SummaryData := do
  let order_type ← _detect_order_type fileName
  let firstPage ← pyIdx pages 0
  let header ← _extract_header firstPage.lines
  let urls := _extract_urls pages
  let rows ← _extract_order_rows (pages.map SummaryPage.lines)
  let orders := buildOrders rows urls
  .ok { order_type := order_type,
        customer_name := (header.customer_name).getD "",
        customer_email := (header.customer_email).getD "",
        number_of_orders := (header.number_of_orders).getD 0,
        total_amount := (header.total_amount).getD 0,
        date_range := (header.date_range).getD "",
        orders := orders }

/-! ### food_parser.py item scanning (parse_food_detail lines 229-257) -/

/-- An optionally-absent table cell as delivered by table extraction. -/
abbrev Cell := Option String

/-- A table row of cells. -/
abbrev TableRow := List Cell

/-- A table artifact. -/
abbrev Table := List TableRow

/-- food_parser.py `FoodItem`. -/
structure FoodItem where
  sr_no : Int
  description : String
  unit_of_measure : String
  quantity : Int
  unit_price : ℚ
  amount : ℚ
  discount : ℚ
  net_assessable_value : ℚ
deriving DecidableEq, Repr

/-- Serial-number test used by both detail parsers:
`row[0] and row[0].strip().rstrip(".").isdigit()` (after `row[0]` is known). -/
def serialCell (c : Cell) : Bool :=
  cellTruthy c && pyIsdigit (rstripDots (pyStrip (cellOrEmpty c)))

/-- Python `x.strip() if x else ""` on an optional cell. -/
def stripOrEmpty (c : Cell) : String :=
  match c with
  | some s => if s ≠ "" then pyStrip s else ""
  | none => ""

/-- Python `int(x.strip()) if x else 0` on an optional cell. -/
def qtyOfCell (c : Cell) : Except PyError Int :=
  match c with
  | some s => if s ≠ "" then pyIntE (pyStrip s) else Except.ok 0
  | none => Except.ok 0

/-- Build one `FoodItem` from an item row (cell positions depend on the
physical cell count: 9-or-more columns have a spacer at index 4). -/
def foodItemOfRow (row : TableRow) : Except PyError FoodItem := do
  let c0 ← pyIdx row 0
  let sr ← pyIntE (rstripDots (pyStrip (cellOrEmpty c0)))
  let c1 ← pyIdx row 1
  let uom ← pyIdx row 2
  let qty ← pyIdx row 3
  let prices ←
    if row.length ≥ 9 then do
      let p ← pyIdx row 5
      let a ← pyIdx row 6
      let d ← pyIdx row 7
      let n ← pyIdx row 8
      Except.ok (p, a, d, n)
    else do
      let p ← pyIdx row 4
      let a ← pyIdx row 5
      let d ← pyIdx row 6
      let n ← pyIdx row 7
      Except.ok (p, a, d, n)
  let qn ← qtyOfCell qty
  Except.ok
    { sr_no := sr
      description := stripOrEmpty c1
      unit_of_measure := stripOrEmpty uom
      quantity := qn
      unit_price := _parse_float prices.1
      amount := _parse_float prices.2.1
      discount := _parse_float prices.2.2.1
      net_assessable_value := _parse_float prices.2.2.2 }

/-- The item/subtotal loop of `parse_food_detail` over `table[4:]`: stop at a
"Subtotal" row taking the subtotal from its last cell, collect serial-numbered
item rows, skip anything else. -/
def foodItemsLoop : List TableRow → Except PyError (List FoodItem × ℚ)
  | [] => .ok ([], 0)
  | row :: rest => do
    let c1 ← pyIdx row 1
    if cellTruthy c1 && pyStrip (cellOrEmpty c1) = "Subtotal" then do
      let l ← pyLast row
      Except.ok ([], _parse_float l)
    else do
      let c0 ← pyIdx row 0
      if cellTruthy c0 && pyIn "Subtotal" (cellOrEmpty c0) then do
        let l ← pyLast row
        Except.ok ([], _parse_float l)
      else if serialCell c0 then do
        let item ← foodItemOfRow row
        let (items, sub) ← foodItemsLoop rest
        Except.ok (item :: items, sub)
      else
        foodItemsLoop rest

/-- The item-scanning phase of `parse_food_detail`: iteration starts at
`table[4:]`, i.e. right after the column-header row at index 3. -/
def foodItemsScan (table : Table) : Except PyError (List FoodItem × ℚ) :=
  foodItemsLoop (table.drop 4)

/-! ### instamart_parser.py -/

/-- instamart_parser.py `InstamartItem`. -/
structure InstamartItem where
  sr_no : Int
  description : String
  quantity : Int
  uqc : String
  hsn_sac_code : String
  taxable_value : ℚ
  discount : ℚ
  net_taxable_value : ℚ
  cgst_rate : ℚ
  cgst_amount : ℚ
  sgst_rate : ℚ
  sgst_amount : ℚ
  cess_rate : ℚ
  cess_amount : ℚ
  additional_cess : ℚ
  total_amount : ℚ
deriving DecidableEq, Repr

/-- instamart_parser.py `HandlingFee`. -/
structure HandlingFee where
  invoice_no : String
  date_of_invoice : String
  hsn_code : String
  hsn_description : String
  category : String
  transaction_type : String
  invoice_type : String
  reverse_charges : Bool
  swiggy_pan : String
  swiggy_gstin : String
  swiggy_address : String
  swiggy_pincode : String
  swiggy_state_code : String
  description : String
  unit_price : ℚ
  discount : ℚ
  net_assessable_value : ℚ
  cgst_rate : ℚ
  cgst_amount : ℚ
  sgst_rate : ℚ
  sgst_amount : ℚ
  state_cess_rate : ℚ
  state_cess_amount : ℚ
  total_taxes : ℚ
  invoice_total : ℚ
deriving DecidableEq, Repr

/-- instamart_parser.py `InstamartInvoice`. -/
structure InstamartInvoice where
  order_id : String
  invoice_no : String
  date_of_invoice : String
  document_type : String
  category : String
  customer_name : String
  customer_gstin : String
  customer_address : String
  seller_name : String
  seller_gstin : String
  seller_fssai : String
  seller_address : String
  seller_city : String
  seller_state : String
  place_of_supply : String
  invoice_value : ℚ
  items : List InstamartItem
  handling_fee : Option HandlingFee
deriving DecidableEq, Repr

/-- Pattern `Invoice To:\s*(.+?)(?:\s{2,}Seller Name)` -/
def reImInvoiceTo : RE :=
  reSeqs [reLit "Invoice To:", RE.star false reWs,
    RE.grp 1 (rePlus true (reDot false)), reWs2, reLit "Seller Name"]

/-- Pattern `Customer Address:\s*(.+?)(?:\s{2,}FSSAI)` -/
def reImCustAddr : RE :=
  reSeqs [reLit "Customer Address:", RE.star false reWs,
    RE.grp 1 (rePlus true (reDot false)), reWs2, reLit "FSSAI"]

/-- Pattern `Seller Name:\s*(.+?)$` with `re.MULTILINE` -/
def reSellerName : RE :=
  reSeqs [reLit "Seller Name:", RE.star false reWs,
    RE.grp 1 (rePlus true (reDot false)), RE.eol true]

/-- Pattern `Seller GSTIN:\s*(\S+)` -/
def reSellerGstin : RE :=
  reSeqs [reLit "Seller GSTIN:", RE.star false reWs, RE.grp 1 (rePlus false reNws)]

/-- Pattern `FSSAI:\s*(\S+)` -/
def reFssai : RE :=
  reSeqs [reLit "FSSAI:", RE.star false reWs, RE.grp 1 (rePlus false reNws)]

/-- Pattern `Order ID:.*?\nAddress:\s*(.+?)(?=\nDocument:)` with `re.DOTALL` -/
def reSellerAddr1 : RE :=
  reSeqs [reLit "Order ID:", RE.star true (reDot true), reLit "\nAddress:",
    RE.star false reWs, RE.grp 1 (rePlus true (reDot true)),
    RE.look (reLit "\nDocument:")]

/-- Pattern `Address:\s*(.+?)(?=\nCity:|\nDocument:)` with `re.DOTALL` (fallback) -/
def reSellerAddr2 : RE :=
  reSeqs [reLit "Address:", RE.star false reWs,
    RE.grp 1 (rePlus true (reDot true)),
    RE.look (RE.alt (reLit "\nCity:") (reLit "\nDocument:"))]

/-- Pattern `City:\s*(.+?)$` with `re.MULTILINE` -/
def reCity : RE :=
  reSeqs [reLit "City:", RE.star false reWs,
    RE.grp 1 (rePlus true (reDot false)), RE.eol true]

/-- Pattern `State:\s*(.+?)$` with `re.MULTILINE` (no `^` anchor here) -/
def reState : RE :=
  reSeqs [reLit "State:", RE.star false reWs,
    RE.grp 1 (rePlus true (reDot false)), RE.eol true]

/-- The dictionary built by `_parse_seller_header` (all keys always set). -/
structure SellerHeader where
  customer_name : String
  customer_gstin : String
  customer_address : String
  order_id : String
  document_type : String
  invoice_no : String
  date_of_invoice : String
  category : String
  seller_name : String
  seller_gstin : String
  seller_fssai : String
  seller_address : String
  seller_city : String
  seller_state : String
  place_of_supply : String
deriving DecidableEq, Repr

/-- instamart_parser.py `_parse_seller_header`. -/
def _parse_seller_header (t : String) : SellerHeader :=
  { customer_name := fieldStrip reImInvoiceTo t ""
    customer_gstin := fieldStrip reCustGstin t ""
    customer_address := fieldStrip reImCustAddr t ""
    order_id := fieldStrip reOrderId t ""
    document_type := fieldStrip reDocument t "INV"
    invoice_no := fieldStrip reInvoiceNo t ""
    date_of_invoice := fieldStrip reDateOfInvoice t ""
    category := fieldStrip reCategory t ""
    seller_name := fieldStrip reSellerName t ""
    seller_gstin := fieldStrip reSellerGstin t ""
    seller_fssai := fieldStrip reFssai t ""
    seller_address :=
      match searchGrp1 reSellerAddr1 t with
      | some v => normSpace v
      | none => fieldNorm reSellerAddr2 t
    seller_city := fieldStrip reCity t ""
    seller_state := fieldStrip reState t ""
    place_of_supply := fieldStrip rePlaceOfSupply t "" }

/-- Pattern `PAN:\s*(\S+)` -/
def rePan : RE :=
  reSeqs [reLit "PAN:", RE.star false reWs, RE.grp 1 (rePlus false reNws)]

/-- Pattern `GSTIN:.*?\nAddress:\s*(.+?)(?=\nPincode:)` with `re.DOTALL` -/
def reSwAddr : RE :=
  reSeqs [reLit "GSTIN:", RE.star true (reDot true), reLit "\nAddress:",
    RE.star false reWs, RE.grp 1 (rePlus true (reDot true)),
    RE.look (reLit "\nPincode:")]

/-- Pattern `Pincode:\s*(\S+)` -/
def rePincode : RE :=
  reSeqs [reLit "Pincode:", RE.star false reWs, RE.grp 1 (rePlus false reNws)]

/-- Pattern `State Code:\s*(\S+)` -/
def reStateCode : RE :=
  reSeqs [reLit "State Code:", RE.star false reWs, RE.grp 1 (rePlus false reNws)]

/-- Pattern `Transaction Type:\s*(\S+)` -/
def reTransType : RE :=
  reSeqs [reLit "Transaction Type:", RE.star false reWs, RE.grp 1 (rePlus false reNws)]

/-- Pattern `Invoice Type:\s*(\S+)` -/
def reInvType : RE :=
  reSeqs [reLit "Invoice Type:", RE.star false reWs, RE.grp 1 (rePlus false reNws)]

/-- Pattern `Whether Reverse Charges\s*(\S+)` -/
def reWhetherRev : RE :=
  reSeqs [reLit "Whether Reverse Charges", RE.star false reWs,
    RE.grp 1 (rePlus false reNws)]

/-- The dictionary built by `_parse_handling_header` (all keys always set). -/
structure HandlingHeader where
  swiggy_pan : String
  swiggy_gstin : String
  swiggy_address : String
  swiggy_pincode : String
  swiggy_state_code : String
  invoice_no : String
  date_of_invoice : String
  category : String
  transaction_type : String
  invoice_type : String
  reverse_charges : String
deriving DecidableEq, Repr

/-- instamart_parser.py `_parse_handling_header`. -/
def _parse_handling_header (t : String) : HandlingHeader :=
  { swiggy_pan := fieldStrip rePan t ""
    swiggy_gstin := fieldStrip reCustGstin t ""
    swiggy_address := fieldNorm reSwAddr t
    swiggy_pincode := fieldStrip rePincode t ""
    swiggy_state_code := fieldStrip reStateCode t ""
    invoice_no := fieldStrip reInvoiceNo t ""
    date_of_invoice := fieldStrip reDateOfInvoice t ""
    category := fieldStrip reCategory t ""
    transaction_type := fieldStrip reTransType t ""
    invoice_type := fieldStrip reInvType t ""
    reverse_charges := fieldStrip reWhetherRev t "No" }

/-- Pattern `CGST\s+([\d.]+)%\s+([\d,.]+)` -/
def reCgstPair : RE :=
  reSeqs [reLit "CGST", rePlus false reWs,
    RE.grp 1 (rePlus false (RE.cls (fun c => c.isDigit || c = '.'))), reLit "%",
    rePlus false reWs, RE.grp 2 (rePlus false (RE.cls (fun c => c.isDigit || c = ',' || c = '.')))]

/-- Pattern `SGST/UTGST\s+([\d.]+)%\s+([\d,.]+)` -/
def reSgstPair : RE :=
  reSeqs [reLit "SGST/UTGST", rePlus false reWs,
    RE.grp 1 (rePlus false (RE.cls (fun c => c.isDigit || c = '.'))), reLit "%",
    rePlus false reWs, RE.grp 2 (rePlus false (RE.cls (fun c => c.isDigit || c = ',' || c = '.')))]

/-- Pattern `State CESS\s+([\d.]+)%\s+([\d,.]+)` -/
def reStateCessPair : RE :=
  reSeqs [reLit "State CESS", rePlus false reWs,
    RE.grp 1 (rePlus false (RE.cls (fun c => c.isDigit || c = '.'))), reLit "%",
    rePlus false reWs, RE.grp 2 (rePlus false (RE.cls (fun c => c.isDigit || c = ',' || c = '.')))]

/-- Pattern `Total taxes\s+([\d,.]+)` -/
def reTotalTaxes : RE :=
  reSeqs [reLit "Total taxes", rePlus false reWs,
    RE.grp 1 (rePlus false (RE.cls (fun c => c.isDigit || c = ',' || c = '.')))]

/-- Pattern `Invoice Total\s+([\d,.]+)` -/
def reInvoiceTotal : RE :=
  reSeqs [reLit "Invoice Total", rePlus false reWs,
    RE.grp 1 (rePlus false (RE.cls (fun c => c.isDigit || c = ',' || c = '.')))]

/-- Pattern `(\d{6})\s+(.+?)(?:\n|Total taxes)` -/
def reHsnInfo : RE :=
  reSeqs [RE.grp 1 (reRep reD 6), rePlus false reWs,
    RE.grp 2 (rePlus true (reDot false)),
    RE.alt (reLit "\n") (reLit "Total taxes")]

/-- Both capture groups of a two-group search, when it matches. -/
def searchPair (re : RE) (t : String) : Option (String × String) :=
  (reSearch re t).bind (fun cs =>
    match capGet cs 1, capGet cs 2 with
    | some a, some b => some (a, b)
    | _, _ => none)

/-- The dictionary built by `_parse_handling_tax`: the rate/amount pairs and
the HSN info are set only when their pattern matches; the totals are always
set. -/
structure HandlingTaxD where
  cgst_rate : Option ℚ
  cgst_amount : Option ℚ
  sgst_rate : Option ℚ
  sgst_amount : Option ℚ
  state_cess_rate : Option ℚ
  state_cess_amount : Option ℚ
  total_taxes : ℚ
  invoice_total : ℚ
  hsn_code : Option String
  hsn_description : Option String
deriving DecidableEq, Repr

/-- instamart_parser.py `_parse_handling_tax`; the bare `float` on the rate
captures can raise. -/
def _parse_handling_tax (t : String) : Except PyError HandlingTaxD := do
  let cg ← match searchPair reCgstPair t with
    | some (r, a) => do
        let rv ← pyFloatE r
        Except.ok (some (rv, _pf (some a)))
    | none => Except.ok none
  let sg ← match searchPair reSgstPair t with
    | some (r, a) => do
        let rv ← pyFloatE r
        Except.ok (some (rv, _pf (some a)))
    | none => Except.ok none
  let sc ← match searchPair reStateCessPair t with
    | some (r, a) => do
        let rv ← pyFloatE r
        Except.ok (some (rv, _pf (some a)))
    | none => Except.ok none
  let tt := match searchGrp1 reTotalTaxes t with
    | some v => _pf (some v)
    | none => 0
  let it := match searchGrp1 reInvoiceTotal t with
    | some v => _pf (some v)
    | none => 0
  let hsn := match searchPair reHsnInfo t with
    | some (c, d) => some (pyStrip c, pyStrip d)
    | none => none
  Except.ok
    { cgst_rate := cg.map Prod.fst
      cgst_amount := cg.map Prod.snd
      sgst_rate := sg.map Prod.fst
      sgst_amount := sg.map Prod.snd
      state_cess_rate := sc.map Prod.fst
      state_cess_amount := sc.map Prod.snd
      total_taxes := tt
      invoice_total := it
      hsn_code := hsn.map Prod.fst
      hsn_description := hsn.map Prod.snd }

/-- Build one `InstamartItem` from a page-1 item row (fixed positions 0-15). -/
def instaItemOfRow (row : TableRow) : Except PyError InstamartItem := do
  let c0 ← pyIdx row 0
  let sr ← pyIntE (rstripDots (pyStrip (cellOrEmpty c0)))
  let c1 ← pyIdx row 1
  let c2 ← pyIdx row 2
  let qn ← qtyOfCell c2
  let c3 ← pyIdx row 3
  let c4 ← pyIdx row 4
  let c5 ← pyIdx row 5
  let c6 ← pyIdx row 6
  let c7 ← pyIdx row 7
  let c8 ← pyIdx row 8
  let c9 ← pyIdx row 9
  let c10 ← pyIdx row 10
  let c11 ← pyIdx row 11
  let c12 ← pyIdx row 12
  let c13 ← pyIdx row 13
  let c14 ← pyIdx row 14
  let c15 ← pyIdx row 15
  Except.ok
    { sr_no := sr
      description := normSpace (cellOrEmpty c1)
      quantity := qn
      uqc := pyStrip (cellOrEmpty c3)
      hsn_sac_code := pyStrip (cellOrEmpty c4)
      taxable_value := _pf c5
      discount := _pf c6
      net_taxable_value := _pf c7
      cgst_rate := _pf c8
      cgst_amount := _pf c9
      sgst_rate := _pf c10
      sgst_amount := _pf c11
      cess_rate := _pf c12
      cess_amount := _pf c13
      additional_cess := _pf c14
      total_amount := _pf c15 }

/-- One iteration of the page-1 item loop of `parse_instamart_detail`:
"Invoice Value" rows set the sentinel, "Amount in words" rows are skipped,
serial-numbered rows become items, anything else is skipped. -/
def instaStep (st : List InstamartItem × ℚ) (row : TableRow) :
    Except PyError (List InstamartItem × ℚ) := do
  let c0 ← pyIdx row 0
  if cellTruthy c0 && pyIn "Invoice Value" (cellOrEmpty c0) then do
    let l ← pyLast row
    Except.ok (st.1, _pf l)
  else if cellTruthy c0 && pyIn "Amount in words" (cellOrEmpty c0) then
    Except.ok st
  else if serialCell c0 then do
    let item ← instaItemOfRow row
    Except.ok (st.1 ++ [item], st.2)
  else
    Except.ok st

/-- The page-1 item loop over `table1[3:]`. -/
def instaLoop (rows : List TableRow) : Except PyError (List InstamartItem × ℚ) :=
  rows.foldlM instaStep ([], 0)

/-- Page-2 search for the first serial-numbered row (`h_item_row`). -/
def findNumericRow : List TableRow → Except PyError (Option TableRow)
  | [] => .ok none
  | r :: rest => do
    let c0 ← pyIdx r 0
    if serialCell c0 then Except.ok (some r)
    else findNumericRow rest

/-- The `next(...)` search for the row whose first cell holds both a "Taxes"
and a "CGST" marker. -/
def findTaxRow : List TableRow → Except PyError (Option TableRow)
  | [] => .ok none
  | r :: rest => do
    let c0 ← pyIdx r 0
    if cellTruthy c0 && pyIn "Taxes" (cellOrEmpty c0) && pyIn "CGST" (cellOrEmpty c0) then
      Except.ok (some r)
    else findTaxRow rest

/-- A page artifact for the detail parsers: its extracted tables. -/
structure PdfPage where
  tables : List Table
deriving DecidableEq, Repr

/-- A detail document artifact: its pages. -/
structure PdfDoc where
  pages : List PdfPage
deriving DecidableEq, Repr

/-- The page-2 (handling fee) block of `parse_instamart_detail`, for a
document whose second page exists. -/
def buildHandlingFee (page2 : PdfPage) (inv_order_id : String) :
    Except PyError HandlingFee := do
  let table2 ← pyIdx page2.tables 0
  let hRow ← pyIdx table2 2
  let hCell ← pyIdx hRow 0
  let hh := _parse_handling_header (cellOrEmpty hCell)
  let h_item_row ← findNumericRow (table2.drop 3)
  let h_tax_row ← findTaxRow table2
  let h_taxes ← match h_tax_row with
    | some r => do
        let c0 ← pyIdx r 0
        _parse_handling_tax (cellOrEmpty c0)
    | none =>
        Except.ok { cgst_rate := none, cgst_amount := none, sgst_rate := none,
                    sgst_amount := none, state_cess_rate := none,
                    state_cess_amount := none, total_taxes := 0, invoice_total := 0,
                    hsn_code := none, hsn_description := none }
  let itm ← match h_item_row with
    | some r => do
        let c1 ← pyIdx r 1
        let desc := normSpace (cellOrEmpty c1)
        if r.length ≥ 10 then do
          let p ← pyIdx r 5
          let d ← pyIdx r 8
          let n ← pyIdx r 9
          Except.ok (desc, _pf p, _pf d, _pf n)
        else do
          let p ← pyIdx r 5
          let d ← pyIdx r 7
          let n ← pyIdx r 8
          Except.ok (desc, _pf p, _pf d, _pf n)
    | none =>
        Except.ok ("Handling Fees for Order " ++ inv_order_id, (0 : ℚ), (0 : ℚ), (0 : ℚ))
  Except.ok
    { invoice_no := hh.invoice_no
      date_of_invoice := hh.date_of_invoice
      hsn_code := (h_taxes.hsn_code).getD ""
      hsn_description := (h_taxes.hsn_description).getD ""
      category := hh.category
      transaction_type := hh.transaction_type
      invoice_type := hh.invoice_type
      reverse_charges := hh.reverse_charges.toLower = "yes"
      swiggy_pan := hh.swiggy_pan
      swiggy_gstin := hh.swiggy_gstin
      swiggy_address := hh.swiggy_address
      swiggy_pincode := hh.swiggy_pincode
      swiggy_state_code := hh.swiggy_state_code
      description := itm.1
      unit_price := itm.2.1
      discount := itm.2.2.1
      net_assessable_value := itm.2.2.2
      cgst_rate := (h_taxes.cgst_rate).getD 0
      cgst_amount := (h_taxes.cgst_amount).getD 0
      sgst_rate := (h_taxes.sgst_rate).getD 0
      sgst_amount := (h_taxes.sgst_amount).getD 0
      state_cess_rate := (h_taxes.state_cess_rate).getD 0
      state_cess_amount := (h_taxes.state_cess_amount).getD 0
      total_taxes := h_taxes.total_taxes
      invoice_total := h_taxes.invoice_total }

/-- The handling-fee phase of `parse_instamart_detail`: `handling` stays
`None` unless a second page exists. -/
def parseHandlingPart (pages : List PdfPage) (inv_order_id : String) :
    Except PyError (Option HandlingFee) :=
  if pages.length ≥ 2 then do
    let page2 ← pyIdx pages 1
    let hf ← buildHandlingFee page2 inv_order_id
    Except.ok (some hf)
  else Except.ok none

/-- instamart_parser.py `parse_instamart_detail` over the document's page
artifacts (the open-failure path, which returns `None`, is the only caught
failure and is outside this function's inputs). -/
def parse_instamart_detail (doc : PdfDoc) : Except PyError InstamartInvoice := do
  let page1 ← pyIdx doc.pages 0
  let table1 ← pyIdx page1.tables 0
  let hRow ← pyIdx table1 1
  let hCell ← pyIdx hRow 0
  let header := _parse_seller_header (cellOrEmpty hCell)
  let st ← instaLoop (table1.drop 3)
  let handling ← parseHandlingPart doc.pages header.order_id
  Except.ok
    { order_id := header.order_id
      invoice_no := header.invoice_no
      date_of_invoice := header.date_of_invoice
      document_type := header.document_type
      category := header.category
      customer_name := header.customer_name
      customer_gstin := header.customer_gstin
      customer_address := header.customer_address
      seller_name := header.seller_name
      seller_gstin := header.seller_gstin
      seller_fssai := header.seller_fssai
      seller_address := header.seller_address
      seller_city := header.seller_city
      seller_state := header.seller_state
      place_of_supply := header.place_of_supply
      invoice_value := st.2
      items := st.1
      handling_fee := handling }

/-! ### food_parser.py `parse_food_detail` -/

/-- food_parser.py `FoodInvoice`. -/
structure FoodInvoice where
  order_id : String
  invoice_no : String
  date_of_invoice : String
  document_type : String
  hsn_code : String
  service_description : String
  category : String
  reverse_charges : Bool
  customer_name : String
  customer_gstin : String
  customer_address : String
  restaurant_name : String
  restaurant_gstin : String
  restaurant_fssai : String
  restaurant_address : String
  restaurant_state : String
  place_of_supply : String
  subtotal : ℚ
  igst_rate : ℚ
  igst_amount : ℚ
  cgst_rate : ℚ
  cgst_amount : ℚ
  sgst_rate : ℚ
  sgst_amount : ℚ
  total_taxes : ℚ
  invoice_total : ℚ
  eco_name : String
  eco_gstin : String
  eco_fssai : String
  eco_address : String
  items : List FoodItem
deriving DecidableEq, Repr

/-- Pattern `IGST\s+([\d.]+)%\s+([\d,.]+)` -/
def reIgstPair : RE :=
  reSeqs [reLit "IGST", rePlus false reWs,
    RE.grp 1 (rePlus false (RE.cls (fun c => c.isDigit || c = '.'))), reLit "%",
    rePlus false reWs, RE.grp 2 (rePlus false (RE.cls (fun c => c.isDigit || c = ',' || c = '.')))]

/-- The dictionary built by `_parse_tax_block` (every key is initialised to
zero, so a plain structure is faithful). -/
structure FoodTaxD where
  igst_rate : ℚ
  igst_amount : ℚ
  cgst_rate : ℚ
  cgst_amount : ℚ
  sgst_rate : ℚ
  sgst_amount : ℚ
  total_taxes : ℚ
  invoice_total : ℚ
deriving DecidableEq, Repr

/-- food_parser.py `_parse_tax_block`; the bare `float` on the rate captures
can raise. -/
def _parse_tax_block (t : String) : Except PyError FoodTaxD := do
  let ig ← match searchPair reIgstPair t with
    | some (r, a) => do
        let rv ← pyFloatE r
        Except.ok (some (rv, _parse_float (some a)))
    | none => Except.ok none
  let cg ← match searchPair reCgstPair t with
    | some (r, a) => do
        let rv ← pyFloatE r
        Except.ok (some (rv, _parse_float (some a)))
    | none => Except.ok none
  let sg ← match searchPair reSgstPair t with
    | some (r, a) => do
        let rv ← pyFloatE r
        Except.ok (some (rv, _parse_float (some a)))
    | none => Except.ok none
  Except.ok
    { igst_rate := (ig.map Prod.fst).getD 0
      igst_amount := (ig.map Prod.snd).getD 0
      cgst_rate := (cg.map Prod.fst).getD 0
      cgst_amount := (cg.map Prod.snd).getD 0
      sgst_rate := (sg.map Prod.fst).getD 0
      sgst_amount := (sg.map Prod.snd).getD 0
      total_taxes :=
        ((searchGrp1 reTotalTaxes t).map (fun v => _parse_float (some v))).getD 0
      invoice_total :=
        ((searchGrp1 reInvoiceTotal t).map (fun v => _parse_float (some v))).getD 0 }

/-- Pattern `Name:\s*(.+?)(?:\n|$)` (non-multiline `$`) -/
def reEcoName : RE :=
  reSeqs [reLit "Name:", RE.star false reWs,
    RE.grp 1 (rePlus true (reDot false)), RE.alt (reLit "\n") (RE.eol false)]

/-- Pattern `Address:\s*(.+?)(?:\n|$)` (non-multiline `$`) -/
def reEcoAddr : RE :=
  reSeqs [reLit "Address:", RE.star false reWs,
    RE.grp 1 (rePlus true (reDot false)), RE.alt (reLit "\n") (RE.eol false)]

/-- Pattern `GSTIN:\s*(\S+)` (no line anchor) -/
def reEcoGstin : RE :=
  reSeqs [reLit "GSTIN:", RE.star false reWs, RE.grp 1 (rePlus false reNws)]

/-- Pattern `Swiggy FSSAI:\s*(\S+)` -/
def reEcoFssai : RE :=
  reSeqs [reLit "Swiggy FSSAI:", RE.star false reWs, RE.grp 1 (rePlus false reNws)]

/-- The dictionary built by `_parse_eco_block` (keys default to ""). -/
structure EcoD where
  eco_name : String
  eco_gstin : String
  eco_fssai : String
  eco_address : String
deriving DecidableEq, Repr

/-- food_parser.py `_parse_eco_block`. -/
def _parse_eco_block (t : String) : EcoD :=
  { eco_name := fieldStrip reEcoName t ""
    eco_gstin := fieldStrip reEcoGstin t ""
    eco_fssai := fieldStrip reEcoFssai t ""
    eco_address := fieldStrip reEcoAddr t "" }

/-- The `next(...)` search for the row whose first cell holds an
"ECO under GST" marker. -/
def findEcoRow : List TableRow → Except PyError (Option TableRow)
  | [] => .ok none
  | r :: rest => do
    let c0 ← pyIdx r 0
    if cellTruthy c0 && pyIn "ECO under GST" (cellOrEmpty c0) then
      Except.ok (some r)
    else findEcoRow rest

/-- food_parser.py `parse_food_detail` over the document's page artifacts
(post-open: the open-failure path, which is the only caught exception and
returns `None`, is outside this function's inputs).  `.ok none` models the
`return None` null result of the table-shape structural check; later
exceptions escape through the `try/finally`. -/
def parse_food_detail (doc : PdfDoc) : Except PyError (Option FoodInvoice) := do
  let page ← pyIdx doc.pages 0
  let tables := page.tables
  if tables.isEmpty then
    Except.ok none
  else do
    let t0 ← pyIdx tables 0
    if t0.length < 8 then
      Except.ok none
    else do
      let hRow ← pyIdx t0 2
      let hCell ← pyIdx hRow 0
      let header := _parse_header (cellOrEmpty hCell)
      let st ← foodItemsScan t0
      let tax_row ← findTaxRow t0
      let taxes ← match tax_row with
        | some r => do
            let c0 ← pyIdx r 0
            _parse_tax_block (cellOrEmpty c0)
        | none =>
            Except.ok { igst_rate := 0, igst_amount := 0, cgst_rate := 0,
                        cgst_amount := 0, sgst_rate := 0, sgst_amount := 0,
                        total_taxes := 0, invoice_total := 0 }
      let eco_row ← findEcoRow t0
      let eco ← match eco_row with
        | some r => do
            let c0 ← pyIdx r 0
            Except.ok (_parse_eco_block (cellOrEmpty c0))
        | none => Except.ok (EcoD.mk "" "" "" "")
      Except.ok (some
        { order_id := header.order_id
          invoice_no := header.invoice_no
          date_of_invoice := header.date_of_invoice
          document_type := header.document_type
          hsn_code := header.hsn_code
          service_description := header.service_description
          category := header.category
          reverse_charges := header.reverse_charges.toLower = "yes"
          customer_name := header.customer_name
          customer_gstin := header.customer_gstin
          customer_address := header.customer_address
          restaurant_name := header.restaurant_name
          restaurant_gstin := header.restaurant_gstin
          restaurant_fssai := header.restaurant_fssai
          restaurant_address := header.restaurant_address
          restaurant_state := header.restaurant_state
          place_of_supply := header.place_of_supply
          subtotal := st.2
          igst_rate := taxes.igst_rate
          igst_amount := taxes.igst_amount
          cgst_rate := taxes.cgst_rate
          cgst_amount := taxes.cgst_amount
          sgst_rate := taxes.sgst_rate
          sgst_amount := taxes.sgst_amount
          total_taxes := taxes.total_taxes
          invoice_total := taxes.invoice_total
          eco_name := eco.eco_name
          eco_gstin := eco.eco_gstin
          eco_fssai := eco.eco_fssai
          eco_address := eco.eco_address
          items := st.1 })

/-- The serial-number test as applied by the page-2 item-row search. -/
def isNumericFirstRow (r : TableRow) : Bool := serialCell (r.getD 0 none)

/-- Decidable equality for `Except` results. -/
instance {ε α : Type} [DecidableEq ε] [DecidableEq α] : DecidableEq (Except ε α) := fun a b =>
  match a, b with
  | .error e, .error f => decidable_of_iff (e = f) (by simp)
  | .ok x, .ok y => decidable_of_iff (x = y) (by simp)
  | .error _, .ok _ => isFalse (by simp)
  | .ok _, .error _ => isFalse (by simp)

/-- On success, `collectRow` returns a suffix of its input. -/
theorem collectRow_rest_le (acc : List String) (ls : List String)
    {p : List String × ℚ × List String}
    (h : collectRow acc ls = .ok (some p)) : p.2.2.length ≤ ls.length := by
  induction ls generalizing acc p with
  | nil => simp [collectRow, pure, Except.pure] at h
  | cons c rest ih =>
    simp only [collectRow] at h
    by_cases hc : isAmountToken (pyStrip c) = true
    · simp only [hc, if_true] at h
      cases hamt : _parse_amountE (pyStrip c) with
      | error e => rw [hamt] at h; simp [Bind.bind, Except.bind] at h
      | ok q =>
        rw [hamt] at h
        simp only [Bind.bind, Except.bind, pure, Except.pure, Except.ok.injEq,
          Option.some.injEq] at h
        subst h
        cases rest with
        | nil => simp
        | cons v r2 =>
          by_cases hv : pyStrip v = "View" <;> simp [hv] <;> omega
    · simp only [hc, if_false] at h
      have := ih (acc ++ [pyStrip c]) h
      simpa using Nat.le_succ_of_le this

/-- The fuel of `scanLinesF` is irrelevant as long as it is at least the
number of lines. -/
theorem scanLinesF_congr : ∀ {f g : Nat} {ls : List String},
    ls.length ≤ f → ls.length ≤ g → scanLinesF f ls = scanLinesF g ls := by
  intro f
  induction f with
  | zero =>
    intro g ls hf hg
    have : ls = [] := List.eq_nil_of_length_eq_zero (Nat.le_zero.mp hf)
    subst this
    cases g <;> simp [scanLinesF]
  | succ f ih =>
    intro g ls hf hg
    match ls with
    | [] => cases g <;> simp [scanLinesF]
    | l :: rest =>
      match g with
      | 0 => simp at hg
      | Nat.succ g =>
        simp only [List.length_cons] at hf hg
        simp only [scanLinesF]
        by_cases hd : isDateToken (pyStrip l) = true
        · simp only [hd, if_true]
          match rest with
          | [] => rfl
          | r :: rest2 =>
            have hf2 : rest2.length + 1 + 1 ≤ f + 1 := by simpa using hf
            have hg2 : rest2.length + 1 + 1 ≤ g + 1 := by simpa using hg
            by_cases ho : isOrderIdToken (pyStrip r) = true
            · simp only [ho, if_true]
              match hcol : collectRow [] rest2 with
              | .error e => rfl
              | .ok none => rfl
              | .ok (some (parts, amt, rest3)) =>
                have h3 : rest3.length ≤ rest2.length := by
                  have := collectRow_rest_le [] rest2 hcol
                  simpa using this
                dsimp only
                rw [show scanLinesF f rest3 = scanLinesF g rest3 from
                  ih (by omega) (by omega)]
            · simp only [ho, if_false]
              exact ih (by omega) (by omega)
        · simp only [hd, if_false]
          exact ih (by omega) (by omega)

/-- Running `scanLinesF` at any sufficient fuel computes `scanLines`. -/
theorem scanLinesF_fuel {fuel : Nat} {ls : List String} (h : ls.length ≤ fuel) :
    scanLinesF fuel ls = scanLines ls :=
  scanLinesF_congr h (Nat.le_refl _)

/-! ### Claims -/

/-- C1 counterexample: the claim says every normalizer implementation,
including the summary extractor's `_parse_amount`, returns `0.0` for the
empty string and for the garbage token "N/A" without raising; in fact
`_parse_amount` has no exception handler and its `float` call raises
`ValueError` on both (modelled as `none`). -/
theorem C1_normalizer_cex :
    _parse_amount "N/A" = none ∧ _parse_amount "" = none := by
  constructor
  · with_unfolding_all rfl
  · with_unfolding_all rfl

/-- C1 (amended): the food and instamart normalizers `_parse_float` and `_pf`
are total and yield 1774.50, 1774.50, 500.50 on the three well-formed tokens
and 0.0 on the empty string, an absent value, and "N/A"; the summary
extractor's `_parse_amount` yields the same three values on the well-formed
tokens but raises (returns `none`) on the empty string and on "N/A". -/
theorem C1_normalizer_amended :
    _parse_float (some "₹1,774.50") = (1774.50 : ℚ) ∧
    _parse_float (some "1774.50") = (1774.50 : ℚ) ∧
    _parse_float (some "  500.50  ") = (500.50 : ℚ) ∧
    _parse_float (some "") = 0 ∧
    _parse_float none = 0 ∧
    _parse_float (some "N/A") = 0 ∧
    _pf (some "₹1,774.50") = (1774.50 : ℚ) ∧
    _pf (some "1774.50") = (1774.50 : ℚ) ∧
    _pf (some "  500.50  ") = (500.50 : ℚ) ∧
    _pf (some "") = 0 ∧
    _pf none = 0 ∧
    _pf (some "N/A") = 0 ∧
    _parse_amount "₹1,774.50" = some (1774.50 : ℚ) ∧
    _parse_amount "1774.50" = some (1774.50 : ℚ) ∧
    _parse_amount "  500.50  " = some (500.50 : ℚ) ∧
    _parse_amount "" = none ∧
    _parse_amount "N/A" = none := by
  refine ⟨?_, ?_, ?_, ?_, ?_, ?_, ?_, ?_, ?_, ?_, ?_, ?_, ?_, ?_, ?_, ?_, ?_⟩
  all_goals with_unfolding_all rfl

/-- C7 counterexample: the claim says a type is produced exactly when the file
name contains the substring of exactly one of the two order types; but for a
name containing both substrings, `_detect_order_type` still succeeds (with
"food", which is checked first) instead of failing. -/
theorem C7_detect_cex :
    pyIn "food" (String.toLower "food_instamart.pdf") = true ∧
    pyIn "instamart" (String.toLower "food_instamart.pdf") = true ∧
    _detect_order_type "food_instamart.pdf" = .ok "food" := by
  refine ⟨?_, ?_, ?_⟩
  · with_unfolding_all rfl
  · with_unfolding_all rfl
  · with_unfolding_all rfl

/-- C7 (amended): summary order-type detection is determined solely by
case-insensitive substring matching with "food" taking priority: it yields
"food" exactly when the lowercased file name contains "food", yields
"instamart" exactly when it contains "instamart" but not "food", and when
neither substring is present `parse_summary`'s detection raises the
type-undetectable `ValueError` (the hard failure). -/
theorem C7_detect_amended (n : String) :
    (_detect_order_type n = .ok "food" ↔ pyIn "food" n.toLower = true) ∧
    (_detect_order_type n = .ok "instamart" ↔
      (pyIn "food" n.toLower = false ∧ pyIn "instamart" n.toLower = true)) ∧
    (pyIn "food" n.toLower = false → pyIn "instamart" n.toLower = false →
      _detect_order_type n =
        .error (.valueError ("Cannot detect order type from filename: " ++ n))) := by
  unfold _detect_order_type
  by_cases hf : pyIn "food" n.toLower = true
  · simp [hf]
  · simp only [Bool.not_eq_true] at hf
    by_cases hi : pyIn "instamart" n.toLower = true
    · simp [hf, hi]
    · simp only [Bool.not_eq_true] at hi
      simp [hf, hi]

/-- C7 witness: the amended theorem applied at a file name with neither
substring yields the hard failure. -/
theorem C7_detect_witness :
    _detect_order_type "order_summary_789.pdf" =
      .error (.valueError ("Cannot detect order type from filename: " ++
        "order_summary_789.pdf")) :=
  (C7_detect_amended "order_summary_789.pdf").2.2 (by with_unfolding_all rfl)
    (by with_unfolding_all rfl)

/-- C6 counterexample: the claim says applying food header extraction to the
empty string makes every field default to the empty string; in fact
`document_type` defaults to "INV" and `reverse_charges` to "No". -/
theorem C6_header_cex :
    (_parse_header "").document_type = "INV" ∧
    (_parse_header "").reverse_charges = "No" ∧
    ("INV" : String) ≠ "" ∧ ("No" : String) ≠ "" := by
  refine ⟨?_, ?_, ?_, ?_⟩
  · with_unfolding_all rfl
  · with_unfolding_all rfl
  · decide
  · decide

/-- C6 (amended): food header extraction of the empty string succeeds and
yields every field at its per-field default — the empty string for all fields
except `document_type` ("INV") and `reverse_charges` ("No"); and extraction is
per-field: a field whose anchor is missing takes only its own default while
any other field's extraction proceeds from its own search alone. -/
theorem C6_header_amended (t : String) :
    _parse_header "" =
      { customer_name := "", customer_gstin := "", customer_address := "",
        order_id := "", document_type := "INV", invoice_no := "",
        date_of_invoice := "", hsn_code := "", restaurant_name := "",
        restaurant_gstin := "", restaurant_fssai := "", restaurant_address := "",
        restaurant_state := "", place_of_supply := "", service_description := "",
        category := "", reverse_charges := "No" } ∧
    (searchGrp1 reOrderId t = none → (_parse_header t).order_id = "") ∧
    (∀ v, searchGrp1 reRestName t = some v →
      (_parse_header t).restaurant_name = pyStrip v) := by
  refine ⟨by with_unfolding_all rfl, ?_, ?_⟩
  · intro h
    simp [_parse_header, fieldStrip, h]
  · intro v h
    simp [_parse_header, fieldStrip, h]

/-- C6 witness: the amended theorem applied at the empty string, whose
order-id anchor is indeed missing. -/
theorem C6_header_witness : (_parse_header "").order_id = "" :=
  (C6_header_amended "").2.1 (by with_unfolding_all rfl)

/-- C4: the summary extractor's hyperlink correlation produces exactly one
`OrderRow` per extracted text row, in row order; the i-th row's `detail_url`
is the i-th extracted hyperlink when `i < m` and the empty string otherwise;
a count mismatch is only a warning and never fails the document (the
correlation is a total function, independent of whether `n = m`). -/
theorem C4_hyperlink_zip (rows : List RawRow) (urls : List String) :
    (buildOrders rows urls).length = rows.length ∧
    (∀ i r, rows.get? i = some r →
      (buildOrders rows urls).get? i = some
        { date := r.date, order_id := r.order_id, name := r.name,
          amount := r.amount,
          detail_url := if i < urls.length then urls.getD i "" else "" }) := by
  constructor
  · simp [buildOrders]
  · intro i r h
    simp [buildOrders, List.get?_map, List.get?_enum, h]
    exact ⟨r, by simpa using h, rfl, rfl, rfl, rfl⟩

/-- C4 witness: two rows against one hyperlink — both rows are produced, the
first with the hyperlink, the second with the empty locator. -/
theorem C4_hyperlink_zip_witness :
    (buildOrders
        [{ date := "01-01-2025", order_id := "123456789012345", name := "A", amount := 0 },
         { date := "02-01-2025", order_id := "123456789012346", name := "B", amount := 0 }]
        ["http://x/1"]).length = 2 ∧
    (buildOrders
        [{ date := "01-01-2025", order_id := "123456789012345", name := "A", amount := 0 },
         { date := "02-01-2025", order_id := "123456789012346", name := "B", amount := 0 }]
        ["http://x/1"]).get? 0 = some
      { date := "01-01-2025", order_id := "123456789012345", name := "A", amount := 0,
        detail_url := "http://x/1" } ∧
    (buildOrders
        [{ date := "01-01-2025", order_id := "123456789012345", name := "A", amount := 0 },
         { date := "02-01-2025", order_id := "123456789012346", name := "B", amount := 0 }]
        ["http://x/1"]).get? 1 = some
      { date := "02-01-2025", order_id := "123456789012346", name := "B", amount := 0,
        detail_url := "" } := by
  refine ⟨?_, ?_, ?_⟩
  · exact (C4_hyperlink_zip _ _).1
  · have h := (C4_hyperlink_zip
      [{ date := "01-01-2025", order_id := "123456789012345", name := "A", amount := 0 },
       { date := "02-01-2025", order_id := "123456789012346", name := "B", amount := 0 }]
      ["http://x/1"]).2 0 _ rfl
    simpa using h
  · have h := (C4_hyperlink_zip
      [{ date := "01-01-2025", order_id := "123456789012345", name := "A", amount := 0 },
       { date := "02-01-2025", order_id := "123456789012346", name := "B", amount := 0 }]
      ["http://x/1"]).2 1 _ rfl
    simpa using h

set_option maxRecDepth 20000

/-- C5 counterexample: the claim says that after an abandoned date candidate,
scanning resumes from the date line's successor, so a second date line right
after an abandoned date line starts a new candidate that can be extracted; in
fact the scan skips that line (the index is advanced twice) and the
well-formed candidate starting at the second date is never extracted. -/
theorem C5_resume_cex :
    isDateToken (pyStrip "01-01-2025") = true ∧
    isDateToken (pyStrip "02-01-2025") = true ∧
    isOrderIdToken (pyStrip "02-01-2025") = false ∧
    isOrderIdToken (pyStrip "123456789012345") = true ∧
    isAmountToken (pyStrip "₹100") = true ∧
    scanLines ["01-01-2025", "02-01-2025", "123456789012345", "Name", "₹100"] = .ok [] ∧
    _extract_order_rows [["01-01-2025", "02-01-2025", "123456789012345", "Name", "₹100"]] =
      .ok [] := by
  refine ⟨?_, ?_, ?_, ?_, ?_, ?_, ?_⟩
  all_goals decide

/-- C5 (amended): when a line matches the strict date pattern and the
immediately following line does not match the strict 15-digit pattern, the
candidate is abandoned and scanning resumes from the second successor of the
date line — the rejected order-id candidate line is consumed, so a date line
in that position does not start a new candidate. -/
theorem C5_resume_amended (l r : String) (rest : List String)
    (hd : isDateToken (pyStrip l) = true)
    (ho : isOrderIdToken (pyStrip r) = false) :
    scanLines (l :: r :: rest) = scanLines rest := by
  rw [scanLines]
  simp only [List.length_cons, scanLinesF, hd, if_true, ho, if_false,
    Bool.false_eq_true]
  exact scanLinesF_fuel (Nat.le_succ _)

/-- C5 witness: the amended theorem applied where a date line is followed by a
non-order-id line. -/
theorem C5_resume_witness : scanLines ["01-01-2025", "oops"] = scanLines [] :=
  C5_resume_amended "01-01-2025" "oops" [] (by decide) (by decide)

/-- If no line matches the amount pattern, the name-accumulation loop reaches
the end of the page and yields nothing. -/
theorem collectRow_no_amount (acc : List String) (ls : List String)
    (h : ∀ x ∈ ls, isAmountToken (pyStrip x) = false) :
    collectRow acc ls = .ok none := by
  induction ls generalizing acc with
  | nil => rfl
  | cons c rest ih =>
    have hc : isAmountToken (pyStrip c) = false := h c (by simp)
    simp only [collectRow, hc, Bool.false_eq_true, if_false]
    exact ih _ (fun x hx => h x (by simp [hx]))

/-- C10: a candidate whose date line and 15-digit line both match but whose
remaining lines reach the end of the page without any line matching the
strict amount pattern produces no `OrderRow` at all — the accumulated
fragments are discarded, not emitted as a partial row. -/
theorem C10_partial_discarded (d o : String) (rest : List String)
    (hd : isDateToken (pyStrip d) = true)
    (ho : isOrderIdToken (pyStrip o) = true)
    (hn : ∀ x ∈ rest, isAmountToken (pyStrip x) = false) :
    scanLines (d :: o :: rest) = .ok [] := by
  rw [scanLines]
  simp only [List.length_cons, scanLinesF, hd, if_true, ho]
  rw [collectRow_no_amount [] rest hn]

/-- C10 witness: a date line and order-id line followed by name fragments and
no amount line yield no rows. -/
theorem C10_partial_discarded_witness :
    scanLines ["01-01-2025", "123456789012345", "Some", "Name"] = .ok [] :=
  C10_partial_discarded "01-01-2025" "123456789012345" ["Some", "Name"]
    (by decide) (by decide)
    (by
      intro x hx
      simp only [List.mem_cons, List.not_mem_nil, or_false] at hx
      rcases hx with h | h <;> subst h <;> decide)

/-- C2 counterexample: the claim says that apart from the type-undetectable
hard failure no exception escapes an extractor call, malformed header lines
included; but a summary document whose header block carries a non-numeric
order count makes `parse_summary` raise `int`'s `ValueError`, which is not
the documented hard failure. -/
theorem C2_escape_cex :
    parse_summary "order_summary_food_1.pdf"
      [{ lines := ["Customer Name", "b", "c", "John", "oops", "z"], urls := [] }] =
      .error (.valueError "invalid literal for int() with base 10") ∧
    PyError.valueError "invalid literal for int() with base 10" ≠
      PyError.valueError
        ("Cannot detect order type from filename: " ++ "order_summary_food_1.pdf") := by
  constructor
  · with_unfolding_all rfl
  · decide

/-- C2 (amended): beyond the type-undetectable hard failure, the extractors
convert to a null result only the document-open failure (caught by
`parse_food_detail` and `parse_instamart_detail`) and `parse_food_detail`'s
table-shape structural check — when page 1 yields no tables, or its first
table has fewer than 8 rows, `parse_food_detail` returns `None` rather than
raising.  Other document-level problems encountered after the document is
opened can escape as exceptions: `parse_summary` has no handler at all, and a
summary first page presenting the "Customer Name" label block with a
non-numeric order-count line makes `_extract_header`, and with it
`parse_summary`, raise `int`'s `ValueError`. -/
theorem C2_escape_amended :
    (∀ (doc : PdfDoc) (page : PdfPage), doc.pages.get? 0 = some page →
      (page.tables.isEmpty = true ∨
        ∃ t0, page.tables.get? 0 = some t0 ∧ t0.length < 8) →
      parse_food_detail doc = .ok none) ∧
    (∀ (fname x l5 : String) (more : List String) (page : SummaryPage)
        (rest : List SummaryPage),
      pyIn "food" fname.toLower = true →
      pyInt (pyStrip x) = none →
      page.lines = ["Customer Name", "b", "c", "John", x, l5] ++ more →
      _extract_header (["Customer Name", "b", "c", "John", x, l5] ++ more) =
        .error (.valueError "invalid literal for int() with base 10") ∧
      parse_summary fname (page :: rest) =
        .error (.valueError "invalid literal for int() with base 10")) := by
  constructor
  · intro doc page hp hshape
    rw [parse_food_detail]
    have hpy : pyIdx doc.pages 0 = .ok page := by
      simp only [pyIdx]
      rw [hp]
    rw [hpy]
    simp only [Bind.bind, Except.bind]
    rcases hshape with hempty | ⟨t0, ht0, hlen⟩
    · simp [hempty]
    · have hne : page.tables.isEmpty = false := by
        cases htab : page.tables with
        | nil => rw [htab] at ht0; simp at ht0
        | cons a l => simp
      simp only [hne, Bool.false_eq_true, if_false]
      have ht0py : pyIdx page.tables 0 = .ok t0 := by
        simp only [pyIdx]
        rw [ht0]
      rw [ht0py]
      simp only [Except.bind]
      rw [if_pos hlen]
  · intro fname x l5 more page rest hfood hx hl
    have hstep : extractHeaderStep (["Customer Name", "b", "c", "John", x, l5] ++ more)
        ⟨none, none, none, none, none⟩ 0 "Customer Name" =
        .error (.valueError "invalid literal for int() with base 10") := by
      simp only [extractHeaderStep]
      rw [if_pos]
      · simp only [pyIdx, List.cons_append, List.get?_cons_succ, List.get?_cons_zero,
          Bind.bind, Except.bind, pyIntE, hx]
      · simp only [List.cons_append, List.length_cons, List.length_append]
        refine (Bool.and_eq_true _ _).mpr ⟨by decide, ?_⟩
        simp only [decide_eq_true_eq]
        omega
    have hhdr : _extract_header (["Customer Name", "b", "c", "John", x, l5] ++ more) =
        .error (.valueError "invalid literal for int() with base 10") := by
      rw [_extract_header]
      rw [show (["Customer Name", "b", "c", "John", x, l5] ++ more).enum =
        (0, "Customer Name") :: (["b", "c", "John", x, l5] ++ more).enumFrom 1 from rfl]
      rw [List.foldlM_cons, hstep]
      rfl
    refine ⟨hhdr, ?_⟩
    have hdet : _detect_order_type fname = .ok "food" := by
      simp [_detect_order_type, hfood]
    rw [parse_summary, hdet]
    simp only [Bind.bind, Except.bind, pyIdx, List.get?_cons_zero, hl, hhdr]

/-- C2 witness: the amended theorem applied to a page with no tables, to a
page whose first table has a single row, and to a concrete summary document
with a malformed order-count header line. -/
theorem C2_escape_witness :
    parse_food_detail (PdfDoc.mk [PdfPage.mk []]) = .ok none ∧
    parse_food_detail (PdfDoc.mk [PdfPage.mk [[[some "x"]]]]) = .ok none ∧
    parse_summary "my_food_summary.pdf"
      [{ lines := ["Customer Name", "b", "c", "John", "abc", "y"], urls := ["u"] }] =
      .error (.valueError "invalid literal for int() with base 10") := by
  refine ⟨?_, ?_, ?_⟩
  · exact C2_escape_amended.1 (PdfDoc.mk [PdfPage.mk []]) (PdfPage.mk []) rfl
      (Or.inl rfl)
  · exact C2_escape_amended.1 (PdfDoc.mk [PdfPage.mk [[[some "x"]]]])
      (PdfPage.mk [[[some "x"]]]) rfl (Or.inr ⟨[[some "x"]], rfl, by decide⟩)
  · exact (C2_escape_amended.2 "my_food_summary.pdf" "abc" "y" []
      { lines := ["Customer Name", "b", "c", "John", "abc", "y"], urls := ["u"] } []
      (by with_unfolding_all rfl) (by decide) rfl).2

/-- In-bounds Python indexing returns the cell. -/
theorem pyIdx_getD {α : Type} (l : List α) (d : α) (i : Nat) (h : i < l.length) :
    pyIdx l i = .ok (l.getD i d) := by
  match h' : l[i]? with
  | some a => simp [pyIdx, List.getD, h']
  | none =>
    rw [List.getElem?_eq_none_iff] at h'
    omega

/-- A conjunction-shaped guard evaluates to false. -/
theorem andDecide_eq_false {b : Bool} {p : Prop} [inst : Decidable p]
    (h : ¬(b = true ∧ p)) : (b && decide p) = false := by
  by_cases hb : b = true
  · by_cases hp : p
    · exact absurd ⟨hb, hp⟩ h
    · simp [hb, hp]
  · simp only [Bool.not_eq_true] at hb
    simp [hb]

/-- A Bool conjunction guard evaluates to false. -/
theorem andBool_eq_false {a b : Bool} (h : ¬(a = true ∧ b = true)) :
    (a && b) = false := by
  cases a <;> cases b <;> simp_all

/-- C8: in food-invoice item extraction, iteration starts after the
column-header row (at `table[4:]`); a row whose second cell is exactly
"Subtotal" (or whose first cell contains "Subtotal") terminates the loop with
the subtotal taken from the row's last cell and no further items; a row is
treated as an item row exactly when its first cell, after stripping a
trailing period, is purely numeric — other rows are skipped — and the
logical field positions are chosen by the row's cell count (columns 5-8 on a
9-or-more-column row, columns 4-7 on an 8-column row). -/
theorem C8_food_items :
    (∀ table : Table, foodItemsScan table = foodItemsLoop (table.drop 4)) ∧
    (∀ row rest lastC, 2 ≤ row.length →
      cellTruthy (row.getD 1 none) = true →
      pyStrip (cellOrEmpty (row.getD 1 none)) = "Subtotal" →
      row.getLast? = some lastC →
      foodItemsLoop (row :: rest) = .ok ([], _parse_float lastC)) ∧
    (∀ row rest lastC, 2 ≤ row.length →
      ¬(cellTruthy (row.getD 1 none) = true ∧
        pyStrip (cellOrEmpty (row.getD 1 none)) = "Subtotal") →
      cellTruthy (row.getD 0 none) = true →
      pyIn "Subtotal" (cellOrEmpty (row.getD 0 none)) = true →
      row.getLast? = some lastC →
      foodItemsLoop (row :: rest) = .ok ([], _parse_float lastC)) ∧
    (∀ row rest, 2 ≤ row.length →
      ¬(cellTruthy (row.getD 1 none) = true ∧
        pyStrip (cellOrEmpty (row.getD 1 none)) = "Subtotal") →
      ¬(cellTruthy (row.getD 0 none) = true ∧
        pyIn "Subtotal" (cellOrEmpty (row.getD 0 none)) = true) →
      serialCell (row.getD 0 none) = false →
      foodItemsLoop (row :: rest) = foodItemsLoop rest) ∧
    (∀ row rest srv qv items sub, 9 ≤ row.length →
      ¬(cellTruthy (row.getD 1 none) = true ∧
        pyStrip (cellOrEmpty (row.getD 1 none)) = "Subtotal") →
      ¬(cellTruthy (row.getD 0 none) = true ∧
        pyIn "Subtotal" (cellOrEmpty (row.getD 0 none)) = true) →
      serialCell (row.getD 0 none) = true →
      pyIntE (rstripDots (pyStrip (cellOrEmpty (row.getD 0 none)))) = .ok srv →
      qtyOfCell (row.getD 3 none) = .ok qv →
      foodItemsLoop rest = .ok (items, sub) →
      foodItemsLoop (row :: rest) = .ok (
        { sr_no := srv
          description := stripOrEmpty (row.getD 1 none)
          unit_of_measure := stripOrEmpty (row.getD 2 none)
          quantity := qv
          unit_price := _parse_float (row.getD 5 none)
          amount := _parse_float (row.getD 6 none)
          discount := _parse_float (row.getD 7 none)
          net_assessable_value := _parse_float (row.getD 8 none) } :: items, sub)) ∧
    (∀ row rest srv qv items sub, row.length = 8 →
      ¬(cellTruthy (row.getD 1 none) = true ∧
        pyStrip (cellOrEmpty (row.getD 1 none)) = "Subtotal") →
      ¬(cellTruthy (row.getD 0 none) = true ∧
        pyIn "Subtotal" (cellOrEmpty (row.getD 0 none)) = true) →
      serialCell (row.getD 0 none) = true →
      pyIntE (rstripDots (pyStrip (cellOrEmpty (row.getD 0 none)))) = .ok srv →
      qtyOfCell (row.getD 3 none) = .ok qv →
      foodItemsLoop rest = .ok (items, sub) →
      foodItemsLoop (row :: rest) = .ok (
        { sr_no := srv
          description := stripOrEmpty (row.getD 1 none)
          unit_of_measure := stripOrEmpty (row.getD 2 none)
          quantity := qv
          unit_price := _parse_float (row.getD 4 none)
          amount := _parse_float (row.getD 5 none)
          discount := _parse_float (row.getD 6 none)
          net_assessable_value := _parse_float (row.getD 7 none) } :: items, sub)) := by
  refine ⟨fun _ => rfl, ?_, ?_, ?_, ?_, ?_⟩
  · intro row rest lastC hlen hb hs hlast
    rw [foodItemsLoop]
    rw [pyIdx_getD row none 1 (by omega)]
    simp only [Bind.bind, Except.bind, hb, hs, decide_True, Bool.and_self, if_true,
      pyLast, hlast]
  · intro row rest lastC hlen hnb hc0 hin hlast
    rw [foodItemsLoop]
    rw [pyIdx_getD row none 1 (by omega)]
    simp only [Bind.bind, Except.bind, andDecide_eq_false hnb, Bool.false_eq_true,
      if_false]
    rw [pyIdx_getD row none 0 (by omega)]
    simp only [Except.bind, hc0, hin, Bool.and_self, if_true, pyLast, hlast]
  · intro row rest hlen hnb hnc hser
    rw [foodItemsLoop]
    rw [pyIdx_getD row none 1 (by omega)]
    simp only [Bind.bind, Except.bind, andDecide_eq_false hnb, Bool.false_eq_true,
      if_false]
    rw [pyIdx_getD row none 0 (by omega)]
    simp only [Except.bind, andBool_eq_false hnc, Bool.false_eq_true, if_false,
      hser]
  · intro row rest srv qv items sub hlen hnb hnc hser hsr hq hrest
    rw [foodItemsLoop]
    rw [pyIdx_getD row none 1 (by omega)]
    simp only [Bind.bind, Except.bind, andDecide_eq_false hnb, Bool.false_eq_true,
      if_false]
    rw [pyIdx_getD row none 0 (by omega)]
    simp only [Except.bind, andBool_eq_false hnc, Bool.false_eq_true, if_false,
      hser, if_true]
    rw [foodItemOfRow]
    rw [pyIdx_getD row none 0 (by omega)]
    simp only [Bind.bind, Except.bind, hsr]
    rw [pyIdx_getD row none 1 (by omega), pyIdx_getD row none 2 (by omega),
      pyIdx_getD row none 3 (by omega)]
    simp only [Except.bind]
    rw [if_pos hlen]
    rw [pyIdx_getD row none 5 (by omega), pyIdx_getD row none 6 (by omega),
      pyIdx_getD row none 7 (by omega), pyIdx_getD row none 8 (by omega)]
    simp only [Except.bind]
    rw [hq]
    simp only [Except.bind, hrest]
  · intro row rest srv qv items sub hlen hnb hnc hser hsr hq hrest
    rw [foodItemsLoop]
    rw [pyIdx_getD row none 1 (by omega)]
    simp only [Bind.bind, Except.bind, andDecide_eq_false hnb, Bool.false_eq_true,
      if_false]
    rw [pyIdx_getD row none 0 (by omega)]
    simp only [Except.bind, andBool_eq_false hnc, Bool.false_eq_true, if_false,
      hser, if_true]
    rw [foodItemOfRow]
    rw [pyIdx_getD row none 0 (by omega)]
    simp only [Bind.bind, Except.bind, hsr]
    rw [pyIdx_getD row none 1 (by omega), pyIdx_getD row none 2 (by omega),
      pyIdx_getD row none 3 (by omega)]
    simp only [Except.bind]
    rw [if_neg (by omega)]
    rw [pyIdx_getD row none 4 (by omega), pyIdx_getD row none 5 (by omega),
      pyIdx_getD row none 6 (by omega), pyIdx_getD row none 7 (by omega)]
    simp only [Except.bind]
    rw [hq]
    simp only [Except.bind, hrest]

/-- C8 witness: a 9-column serial-numbered row yields one item with the
9-column field mapping, and a row with "Subtotal" in its second cell
terminates the loop with the subtotal taken from the last cell. -/
theorem C8_food_items_witness :
    foodItemsLoop [[some "1.", some "Desc", some "OS", some "2", none,
        some "10", some "20", some "0", some "20"]] =
      .ok ([{ sr_no := 1, description := stripOrEmpty (some "Desc"),
              unit_of_measure := stripOrEmpty (some "OS"), quantity := 2,
              unit_price := _parse_float (some "10"),
              amount := _parse_float (some "20"),
              discount := _parse_float (some "0"),
              net_assessable_value := _parse_float (some "20") }], 0) ∧
    foodItemsLoop [[none, some "Subtotal", some "123.45"], [some "1.", some "x"]] =
      .ok ([], _parse_float (some "123.45")) := by
  constructor
  · exact C8_food_items.2.2.2.2.1
      [some "1.", some "Desc", some "OS", some "2", none,
        some "10", some "20", some "0", some "20"] [] 1 2 [] 0
      (by decide) (by decide) (by decide) (by decide) (by decide) (by decide) rfl
  · exact C8_food_items.2.1
      [none, some "Subtotal", some "123.45"] [[some "1.", some "x"]]
      (some "123.45") (by decide) (by decide) (by decide) rfl

/-- Out-of-bounds Python indexing raises IndexError. -/
theorem pyIdx_err {α : Type} (l : List α) (i : Nat) (h : l.length ≤ i) :
    pyIdx l i = .error .indexError := by
  have h' : l[i]? = none := List.getElem?_eq_none h
  simp [pyIdx, h']

/-- A serial-numbered instamart page-1 row with fewer than 16 cells makes the
fixed-position item builder raise IndexError. -/
theorem instaItemOfRow_short (row : TableRow) (srv qv : Int)
    (h0 : 1 ≤ row.length) (hlen : row.length < 16)
    (hsr : pyIntE (rstripDots (pyStrip (cellOrEmpty (row.getD 0 none)))) = .ok srv)
    (hq : qtyOfCell (row.getD 2 none) = .ok qv) :
    instaItemOfRow row = .error .indexError := by
  rw [instaItemOfRow]
  rw [pyIdx_getD row none 0 (by omega)]
  simp only [Bind.bind, Except.bind, hsr]
  by_cases h1 : row.length < 2
  · rw [pyIdx_err row 1 (by omega)]
  · rw [pyIdx_getD row none 1 (by omega)]
    simp only [Except.bind]
    by_cases h2 : row.length < 3
    · rw [pyIdx_err row 2 (by omega)]
    · rw [pyIdx_getD row none 2 (by omega)]
      simp only [Except.bind]
      rw [hq]
      simp only [Except.bind]
      by_cases h3 : row.length < 4
      · rw [pyIdx_err row 3 (by omega)]
      · rw [pyIdx_getD row none 3 (by omega)]
        simp only [Except.bind]
        by_cases h4 : row.length < 5
        · rw [pyIdx_err row 4 (by omega)]
        · rw [pyIdx_getD row none 4 (by omega)]
          simp only [Except.bind]
          by_cases h5 : row.length < 6
          · rw [pyIdx_err row 5 (by omega)]
          · rw [pyIdx_getD row none 5 (by omega)]
            simp only [Except.bind]
            by_cases h6 : row.length < 7
            · rw [pyIdx_err row 6 (by omega)]
            · rw [pyIdx_getD row none 6 (by omega)]
              simp only [Except.bind]
              by_cases h7 : row.length < 8
              · rw [pyIdx_err row 7 (by omega)]
              · rw [pyIdx_getD row none 7 (by omega)]
                simp only [Except.bind]
                by_cases h8 : row.length < 9
                · rw [pyIdx_err row 8 (by omega)]
                · rw [pyIdx_getD row none 8 (by omega)]
                  simp only [Except.bind]
                  by_cases h9 : row.length < 10
                  · rw [pyIdx_err row 9 (by omega)]
                  · rw [pyIdx_getD row none 9 (by omega)]
                    simp only [Except.bind]
                    by_cases h10 : row.length < 11
                    · rw [pyIdx_err row 10 (by omega)]
                    · rw [pyIdx_getD row none 10 (by omega)]
                      simp only [Except.bind]
                      by_cases h11 : row.length < 12
                      · rw [pyIdx_err row 11 (by omega)]
                      · rw [pyIdx_getD row none 11 (by omega)]
                        simp only [Except.bind]
                        by_cases h12 : row.length < 13
                        · rw [pyIdx_err row 12 (by omega)]
                        · rw [pyIdx_getD row none 12 (by omega)]
                          simp only [Except.bind]
                          by_cases h13 : row.length < 14
                          · rw [pyIdx_err row 13 (by omega)]
                          · rw [pyIdx_getD row none 13 (by omega)]
                            simp only [Except.bind]
                            by_cases h14 : row.length < 15
                            · rw [pyIdx_err row 14 (by omega)]
                            · rw [pyIdx_getD row none 14 (by omega)]
                              simp only [Except.bind]
                              rw [pyIdx_err row 15 (by omega)]

/-- C9: instamart page-1 item extraction indexes every serial-numbered row at
the fixed cell positions 0 through 15: when such a row has fewer than 16
cells the extractor raises IndexError instead of defaulting the missing
fields, and when it has at least 16 cells (and a parsable quantity cell) the
item is built from exactly those positions. -/
theorem C9_instamart_row_width :
    (∀ (st : List InstamartItem × ℚ) (row : TableRow) (srv qv : Int),
      serialCell (row.getD 0 none) = true →
      ¬(cellTruthy (row.getD 0 none) = true ∧
        pyIn "Invoice Value" (cellOrEmpty (row.getD 0 none)) = true) →
      ¬(cellTruthy (row.getD 0 none) = true ∧
        pyIn "Amount in words" (cellOrEmpty (row.getD 0 none)) = true) →
      1 ≤ row.length → row.length < 16 →
      pyIntE (rstripDots (pyStrip (cellOrEmpty (row.getD 0 none)))) = .ok srv →
      qtyOfCell (row.getD 2 none) = .ok qv →
      instaStep st row = .error .indexError) ∧
    (∀ (st : List InstamartItem × ℚ) (row : TableRow) (srv qv : Int),
      serialCell (row.getD 0 none) = true →
      ¬(cellTruthy (row.getD 0 none) = true ∧
        pyIn "Invoice Value" (cellOrEmpty (row.getD 0 none)) = true) →
      ¬(cellTruthy (row.getD 0 none) = true ∧
        pyIn "Amount in words" (cellOrEmpty (row.getD 0 none)) = true) →
      16 ≤ row.length →
      pyIntE (rstripDots (pyStrip (cellOrEmpty (row.getD 0 none)))) = .ok srv →
      qtyOfCell (row.getD 2 none) = .ok qv →
      instaStep st row = .ok (st.1 ++
        [{ sr_no := srv
           description := normSpace (cellOrEmpty (row.getD 1 none))
           quantity := qv
           uqc := pyStrip (cellOrEmpty (row.getD 3 none))
           hsn_sac_code := pyStrip (cellOrEmpty (row.getD 4 none))
           taxable_value := _pf (row.getD 5 none)
           discount := _pf (row.getD 6 none)
           net_taxable_value := _pf (row.getD 7 none)
           cgst_rate := _pf (row.getD 8 none)
           cgst_amount := _pf (row.getD 9 none)
           sgst_rate := _pf (row.getD 10 none)
           sgst_amount := _pf (row.getD 11 none)
           cess_rate := _pf (row.getD 12 none)
           cess_amount := _pf (row.getD 13 none)
           additional_cess := _pf (row.getD 14 none)
           total_amount := _pf (row.getD 15 none) }], st.2)) := by
  constructor
  · intro st row srv qv hser hniv hnaw h0 hlen hsr hq
    rw [instaStep]
    rw [pyIdx_getD row none 0 (by omega)]
    simp only [Bind.bind, Except.bind, andBool_eq_false hniv, andBool_eq_false hnaw,
      Bool.false_eq_true, if_false, hser, if_true]
    rw [instaItemOfRow_short row srv qv h0 hlen hsr hq]
  · intro st row srv qv hser hniv hnaw hlen hsr hq
    rw [instaStep]
    rw [pyIdx_getD row none 0 (by omega)]
    simp only [Bind.bind, Except.bind, andBool_eq_false hniv, andBool_eq_false hnaw,
      Bool.false_eq_true, if_false, hser, if_true]
    rw [instaItemOfRow]
    rw [pyIdx_getD row none 0 (by omega)]
    simp only [Bind.bind, Except.bind, hsr]
    rw [pyIdx_getD row none 1 (by omega)]
    simp only [Except.bind]
    rw [pyIdx_getD row none 2 (by omega)]
    simp only [Except.bind]
    rw [hq]
    simp only [Except.bind]
    rw [pyIdx_getD row none 3 (by omega), pyIdx_getD row none 4 (by omega),
      pyIdx_getD row none 5 (by omega), pyIdx_getD row none 6 (by omega),
      pyIdx_getD row none 7 (by omega), pyIdx_getD row none 8 (by omega),
      pyIdx_getD row none 9 (by omega), pyIdx_getD row none 10 (by omega),
      pyIdx_getD row none 11 (by omega), pyIdx_getD row none 12 (by omega),
      pyIdx_getD row none 13 (by omega), pyIdx_getD row none 14 (by omega),
      pyIdx_getD row none 15 (by omega)]

/-- C9 witness: a serial-numbered 3-cell row raises IndexError, and a
16-cell row yields an item with the fixed position mapping. -/
theorem C9_instamart_row_width_witness :
    instaStep ([], 0) [some "1.", some "D", some "2"] = .error .indexError ∧
    instaStep ([], 0)
      [some "1.", some "Thing", some "2", some "PCS", some "2106", some "10",
       some "0", some "10", some "2.5", some "0.25", some "2.5", some "0.25",
       some "0", some "0", some "0", some "10.50"] =
      .ok ([{ sr_no := 1
              description := normSpace (cellOrEmpty (some "Thing"))
              quantity := 2
              uqc := pyStrip (cellOrEmpty (some "PCS"))
              hsn_sac_code := pyStrip (cellOrEmpty (some "2106"))
              taxable_value := _pf (some "10")
              discount := _pf (some "0")
              net_taxable_value := _pf (some "10")
              cgst_rate := _pf (some "2.5")
              cgst_amount := _pf (some "0.25")
              sgst_rate := _pf (some "2.5")
              sgst_amount := _pf (some "0.25")
              cess_rate := _pf (some "0")
              cess_amount := _pf (some "0")
              additional_cess := _pf (some "0")
              total_amount := _pf (some "10.50") }], 0) := by
  constructor
  · exact C9_instamart_row_width.1 ([], 0) [some "1.", some "D", some "2"] 1 2
      (by decide) (by decide) (by decide) (by decide) (by decide)
      (by decide) (by decide)
  · exact C9_instamart_row_width.2 ([], 0)
      [some "1.", some "Thing", some "2", some "PCS", some "2106", some "10",
       some "0", some "10", some "2.5", some "0.25", some "2.5", some "0.25",
       some "0", some "0", some "0", some "10.50"] 1 2
      (by decide) (by decide) (by decide) (by decide) (by decide) (by decide)

/-- An `Except` bind that succeeds decomposes into two successes. -/
theorem exceptBind_ok {ε α β : Type} {e : Except ε α} {f : α → Except ε β} {b : β}
    (h : (e >>= f) = .ok b) : ∃ a, e = .ok a ∧ f a = .ok b := by
  cases e with
  | error err => simp [Bind.bind, Except.bind] at h
  | ok a => exact ⟨a, rfl, by simpa [Bind.bind, Except.bind] using h⟩

/-- If the search succeeds and no row passes the serial test, it finds
nothing. -/
theorem findNumericRow_none {rows : List TableRow} {o : Option TableRow}
    (h : findNumericRow rows = .ok o)
    (hall : ∀ r ∈ rows, isNumericFirstRow r = false) : o = none := by
  induction rows with
  | nil =>
    simp only [findNumericRow, pure, Except.pure, Except.ok.injEq] at h
    exact h.symm
  | cons r rest ih =>
    rw [findNumericRow] at h
    rcases exceptBind_ok h with ⟨c0, hc0, h2⟩
    have hc0' : r.getD 0 none = c0 := by
      simp only [pyIdx] at hc0
      cases hg : List.get? r 0 with
      | none => rw [hg] at hc0; simp at hc0
      | some a =>
        rw [hg] at hc0
        simp only [Except.ok.injEq] at hc0
        subst hc0
        have hg2 : r[0]? = some a := by
          rw [← List.get?_eq_getElem?]
          exact hg
        simp [List.getD, hg2]
    have hser : serialCell c0 = false := by
      have := hall r (by simp)
      rw [isNumericFirstRow, hc0'] at this
      exact this
    rw [hser] at h2
    simp only [Bool.false_eq_true, if_false] at h2
    exact ih h2 (fun x hx => hall x (by simp [hx]))

/-- C3: in a successful instamart parse, `handling_fee` is null exactly when
the document has a single page; and when a second page exists whose table has
no serial-numbered row after the header rows, a non-null `HandlingFee` is
still produced whose description is "Handling Fees for Order " followed by
the page-1 order id and whose unit price, discount and net assessable value
are all zero — a valid zero-fee result, not an error. -/
theorem C3_handling_fee (doc : PdfDoc) (v : InstamartInvoice)
    (hok : parse_instamart_detail doc = .ok v) :
    (v.handling_fee = none ↔ doc.pages.length = 1) ∧
    (∀ p2 t2, doc.pages.get? 1 = some p2 → p2.tables.get? 0 = some t2 →
      (∀ r ∈ t2.drop 3, isNumericFirstRow r = false) →
      ∃ hf, v.handling_fee = some hf ∧
        hf.description = "Handling Fees for Order " ++ v.order_id ∧
        hf.unit_price = 0 ∧ hf.discount = 0 ∧ hf.net_assessable_value = 0) := by
  rw [parse_instamart_detail] at hok
  rcases exceptBind_ok hok with ⟨page1, hpage1, hok⟩
  rcases exceptBind_ok hok with ⟨table1, htable1, hok⟩
  rcases exceptBind_ok hok with ⟨hRow, hhRow, hok⟩
  rcases exceptBind_ok hok with ⟨hCell, hhCell, hok⟩
  rcases exceptBind_ok hok with ⟨st, hst, hok⟩
  rcases exceptBind_ok hok with ⟨handling, hhandling, hok⟩
  simp only [pure, Except.pure, Except.ok.injEq] at hok
  have hv_handling : v.handling_fee = handling := by rw [← hok]
  have hv_oid : v.order_id =
      (_parse_seller_header (cellOrEmpty hCell)).order_id := by rw [← hok]
  have hpages1 : 1 ≤ doc.pages.length := by
    by_contra hlt
    rw [pyIdx_err doc.pages 0 (by omega)] at hpage1
    simp at hpage1
  constructor
  · constructor
    · intro hn
      by_contra hne
      have h2 : 2 ≤ doc.pages.length := by omega
      rw [parseHandlingPart, if_pos h2] at hhandling
      rcases exceptBind_ok hhandling with ⟨p2, hp2, hh2⟩
      rcases exceptBind_ok hh2 with ⟨hf, hhf, hh3⟩
      simp only [pure, Except.pure, Except.ok.injEq] at hh3
      rw [hv_handling, ← hh3] at hn
      simp at hn
    · intro h1
      rw [parseHandlingPart, if_neg (by omega)] at hhandling
      simp only [pure, Except.pure, Except.ok.injEq] at hhandling
      rw [hv_handling, ← hhandling]
  · intro p2 t2 hp2get ht2get hall
    have h2 : 2 ≤ doc.pages.length := by
      have hlt := List.get?_eq_some.mp hp2get
      rcases hlt with ⟨hb, _⟩
      omega
    rw [parseHandlingPart, if_pos h2] at hhandling
    rcases exceptBind_ok hhandling with ⟨p2', hp2', hh2⟩
    have hp2eq : p2' = p2 := by
      simp only [pyIdx] at hp2'
      rw [hp2get] at hp2'
      simpa using hp2'.symm
    subst hp2eq
    rcases exceptBind_ok hh2 with ⟨hf, hhf, hh3⟩
    simp only [pure, Except.pure, Except.ok.injEq] at hh3
    rw [buildHandlingFee] at hhf
    rcases exceptBind_ok hhf with ⟨t2', ht2', hhf⟩
    have ht2eq : t2' = t2 := by
      simp only [pyIdx] at ht2'
      rw [ht2get] at ht2'
      simpa using ht2'.symm
    subst ht2eq
    rcases exceptBind_ok hhf with ⟨hRow2, hhRow2, hhf⟩
    rcases exceptBind_ok hhf with ⟨hCell2, hhCell2, hhf⟩
    rcases exceptBind_ok hhf with ⟨h_item_row, hitem, hhf⟩
    have hnone : h_item_row = none := findNumericRow_none hitem hall
    subst hnone
    rcases exceptBind_ok hhf with ⟨h_tax_row, htax, hhf⟩
    cases h_tax_row with
    | some r =>
      rcases exceptBind_ok hhf with ⟨c0r, hc0r, hhf⟩
      rcases exceptBind_ok hhf with ⟨h_taxes, htaxes, hhf⟩
      rcases exceptBind_ok hhf with ⟨itm, hitm, hhf⟩
      simp only [pure, Except.pure, Except.ok.injEq] at hitm hhf
      refine ⟨hf, by rw [hv_handling, ← hh3], ?_, ?_, ?_, ?_⟩
      · rw [← hhf, ← hitm, hv_oid]
      · rw [← hhf, ← hitm]
      · rw [← hhf, ← hitm]
      · rw [← hhf, ← hitm]
    | none =>
      rcases exceptBind_ok hhf with ⟨h_taxes, htaxes, hhf⟩
      rcases exceptBind_ok hhf with ⟨itm, hitm, hhf⟩
      simp only [pure, Except.pure, Except.ok.injEq] at hitm hhf
      refine ⟨hf, by rw [hv_handling, ← hh3], ?_, ?_, ?_, ?_⟩
      · rw [← hhf, ← hitm, hv_oid]
      · rw [← hhf, ← hitm]
      · rw [← hhf, ← hitm]
      · rw [← hhf, ← hitm]

/-- C3 witness: a two-page document whose second-page table has no
serial-numbered row parses to an invoice with a present, zero-fee
`HandlingFee` whose description carries the page-1 order id. -/
theorem C3_handling_fee_witness :
    ((InstamartInvoice.mk "" "" "" "INV" "" "" "" "" "" "" "" "" "" "" "" 0 []
        (some (HandlingFee.mk "" "" "" "" "" "" "" false "" "" "" "" ""
          "Handling Fees for Order " 0 0 0 0 0 0 0 0 0 0 0))).handling_fee = none ↔
      (PdfDoc.mk [PdfPage.mk [[[some "x"], [some ""]]],
        PdfPage.mk [[[none], [none], [some ""], [none]]]]).pages.length = 1) ∧
    (∃ hf,
      (InstamartInvoice.mk "" "" "" "INV" "" "" "" "" "" "" "" "" "" "" "" 0 []
        (some (HandlingFee.mk "" "" "" "" "" "" "" false "" "" "" "" ""
          "Handling Fees for Order " 0 0 0 0 0 0 0 0 0 0 0))).handling_fee = some hf ∧
      hf.description = "Handling Fees for Order " ++
        (InstamartInvoice.mk "" "" "" "INV" "" "" "" "" "" "" "" "" "" "" "" 0 []
          (some (HandlingFee.mk "" "" "" "" "" "" "" false "" "" "" "" ""
            "Handling Fees for Order " 0 0 0 0 0 0 0 0 0 0 0))).order_id ∧
      hf.unit_price = 0 ∧ hf.discount = 0 ∧ hf.net_assessable_value = 0) := by
  have h := C3_handling_fee
    (PdfDoc.mk [PdfPage.mk [[[some "x"], [some ""]]],
      PdfPage.mk [[[none], [none], [some ""], [none]]]])
    (InstamartInvoice.mk "" "" "" "INV" "" "" "" "" "" "" "" "" "" "" "" 0 []
      (some (HandlingFee.mk "" "" "" "" "" "" "" false "" "" "" "" ""
        "Handling Fees for Order " 0 0 0 0 0 0 0 0 0 0 0)))
    (by with_unfolding_all rfl)
  exact ⟨h.1, h.2 (PdfPage.mk [[[none], [none], [some ""], [none]]])
    [[none], [none], [some ""], [none]] rfl rfl (by decide)⟩

end Swiggyit
